import Mathlib

/-!
Verification of the register-map decode/encode engine and polling
coordinator of the stiebel_eltron_isg integration.

The Python sources embedded here are:
  custom_components/stiebel_eltron_isg/__init__.py
    (base-family coordinator: StiebelEltronModbusDataCoordinator)
  custom_components/stiebel_eltron_isg/wpm_coordinator.py
    (WPM-family coordinator: StiebelEltronModbusWPMDataCoordinator)
  custom_components/stiebel_eltron_isg/button.py
    (reset-heatpump button wiring)

Conventions of the embedding:
  - raw Modbus registers are natural numbers in 0..65535, as delivered by
    pymodbus; `decode_16bit_int` reinterprets them as signed via `toSigned`;
  - Python floats are modelled as rationals;
  - the snapshot dict is an association list with first-match lookup; a
    dict store `result[k] = v` conses onto the front, so the most recent
    store shadows earlier ones, matching dict overwrite semantics;
  - Python exceptions raised during a block decode (KeyError from reading a
    missing dict key, TypeError from `None / 10`) are modelled by `Except`;
  - a pymodbus read returns either an error response (`isError()` true) or
    exactly `count` register words.
-/

/-! ## Field identifier constants

Modelled from the spec: the field identifiers live in `const.py`, which is
not under src/; the spec describes them as stable string/enum keys.  Their
concrete spellings are immaterial to the claims; what matters is that they
are pairwise distinct strings, which these definitions make decidable.
-/

def ACTUAL_TEMPERATURE : String := "actual_temperature"

def TARGET_TEMPERATURE : String := "target_temperature"

def ACTUAL_TEMPERATURE_FEK : String := "actual_temperature_fek"

def TARGET_TEMPERATURE_FEK : String := "target_temperature_fek"

def ACTUAL_HUMIDITY : String := "actual_humidity"

def DEWPOINT_TEMPERATURE : String := "dewpoint_temperature"

def OUTDOOR_TEMPERATURE : String := "outdoor_temperature"

def ACTUAL_TEMPERATURE_HK1 : String := "actual_temperature_hk1"

def TARGET_TEMPERATURE_HK1 : String := "target_temperature_hk1"

def ACTUAL_TEMPERATURE_HK2 : String := "actual_temperature_hk2"

def TARGET_TEMPERATURE_HK2 : String := "target_temperature_hk2"

def ACTUAL_TEMPERATURE_HK3 : String := "actual_temperature_hk3"

def TARGET_TEMPERATURE_HK3 : String := "target_temperature_hk3"

def FLOW_TEMPERATURE : String := "flow_temperature"

def FLOW_TEMPERATURE_NHZ : String := "flow_temperature_nhz"

def RETURN_TEMPERATURE : String := "return_temperature"

def ACTUAL_TEMPERATURE_BUFFER : String := "actual_temperature_buffer"

def TARGET_TEMPERATURE_BUFFER : String := "target_temperature_buffer"

def HEATER_PRESSURE : String := "heater_pressure"

def VOLUME_STREAM : String := "volume_stream"

def ACTUAL_TEMPERATURE_WATER : String := "actual_temperature_water"

def TARGET_TEMPERATURE_WATER : String := "target_temperature_water"

def SOURCE_TEMPERATURE : String := "source_temperature"

def SOURCE_PRESSURE : String := "source_pressure"

def HOT_GAS_TEMPERATURE : String := "hot_gas_temperature"

def HIGH_PRESSURE : String := "high_pressure"

def LOW_PRESSURE : String := "low_pressure"

def RETURN_TEMPERATURE_WP1 : String := "return_temperature_wp1"

def FLOW_TEMPERATURE_WP1 : String := "flow_temperature_wp1"

def HOT_GAS_TEMPERATURE_WP1 : String := "hot_gas_temperature_wp1"

def LOW_PRESSURE_WP1 : String := "low_pressure_wp1"

def HIGH_PRESSURE_WP1 : String := "high_pressure_wp1"

def VOLUME_STREAM_WP1 : String := "volume_stream_wp1"

def RETURN_TEMPERATURE_WP2 : String := "return_temperature_wp2"

def FLOW_TEMPERATURE_WP2 : String := "flow_temperature_wp2"

def HOT_GAS_TEMPERATURE_WP2 : String := "hot_gas_temperature_wp2"

def LOW_PRESSURE_WP2 : String := "low_pressure_wp2"

def HIGH_PRESSURE_WP2 : String := "high_pressure_wp2"

def VOLUME_STREAM_WP2 : String := "volume_stream_wp2"

def ACTUAL_ROOM_TEMPERATURE_HK1 : String := "actual_room_temperature_hk1"

def TARGET_ROOM_TEMPERATURE_HK1 : String := "target_room_temperature_hk1"

def ACTUAL_HUMIDITY_HK1 : String := "actual_humidity_hk1"

def DEWPOINT_TEMPERATURE_HK1 : String := "dewpoint_temperature_hk1"

def ACTUAL_ROOM_TEMPERATURE_HK2 : String := "actual_room_temperature_hk2"

def TARGET_ROOM_TEMPERATURE_HK2 : String := "target_room_temperature_hk2"

def ACTUAL_HUMIDITY_HK2 : String := "actual_humidity_hk2"

def DEWPOINT_TEMPERATURE_HK2 : String := "dewpoint_temperature_hk2"

def ACTUAL_ROOM_TEMPERATURE_HK3 : String := "actual_room_temperature_hk3"

def TARGET_ROOM_TEMPERATURE_HK3 : String := "target_room_temperature_hk3"

def ACTUAL_HUMIDITY_HK3 : String := "actual_humidity_hk3"

def DEWPOINT_TEMPERATURE_HK3 : String := "dewpoint_temperature_hk3"

def PRODUCED_HEATING_TODAY : String := "produced_heating_today"

def PRODUCED_HEATING_TOTAL : String := "produced_heating_total"

def PRODUCED_WATER_HEATING_TODAY : String := "produced_water_heating_today"

def PRODUCED_WATER_HEATING_TOTAL : String := "produced_water_heating_total"

def CONSUMED_HEATING_TODAY : String := "consumed_heating_today"

def CONSUMED_HEATING_TOTAL : String := "consumed_heating_total"

def CONSUMED_WATER_HEATING_TODAY : String := "consumed_water_heating_today"

def CONSUMED_WATER_HEATING_TOTAL : String := "consumed_water_heating_total"

def CONSUMED_POWER : String := "consumed_power"

def IS_HEATING : String := "is_heating"

def IS_HEATING_WATER : String := "is_heating_water"

def IS_SUMMER_MODE : String := "is_summer_mode"

def IS_COOLING : String := "is_cooling"

def SG_READY_STATE : String := "sg_ready_state"

def SG_READY_ACTIVE : String := "sg_ready_active"

def SG_READY_INPUT_1 : String := "sg_ready_input_1"

def SG_READY_INPUT_2 : String := "sg_ready_input_2"

def OPERATION_MODE : String := "operation_mode"

def PUMP_ON_HK1 : String := "pump_on_hk1"

def PUMP_ON_HK2 : String := "pump_on_hk2"

def COMPRESSOR_ON : String := "compressor_on"

def CIRCULATION_PUMP : String := "circulation_pump"

def EVAPORATOR_DEFROST : String := "evaporator_defrost"

def HEAT_UP_PROGRAM : String := "heat_up_program"

def NHZ_STAGES_RUNNING : String := "nhz_stages_running"

def COMFORT_TEMPERATURE_TARGET_HK1 : String := "comfort_temperature_target_hk1"

def ECO_TEMPERATURE_TARGET_HK1 : String := "eco_temperature_target_hk1"

def HEATING_CURVE_RISE_HK1 : String := "heating_curve_rise_hk1"

def COMFORT_TEMPERATURE_TARGET_HK2 : String := "comfort_temperature_target_hk2"

def ECO_TEMPERATURE_TARGET_HK2 : String := "eco_temperature_target_hk2"

def HEATING_CURVE_RISE_HK2 : String := "heating_curve_rise_hk2"

def DUALMODE_TEMPERATURE_HZG : String := "dualmode_temperature_hzg"

def COMFORT_WATER_TEMPERATURE_TARGET : String := "comfort_water_temperature_target"

def ECO_WATER_TEMPERATURE_TARGET : String := "eco_water_temperature_target"

def DUALMODE_TEMPERATURE_WW : String := "dualmode_temperature_ww"

def AREA_COOLING_TARGET_ROOM_TEMPERATURE : String := "area_cooling_target_room_temperature"

def AREA_COOLING_TARGET_FLOW_TEMPERATURE : String := "area_cooling_target_flow_temperature"

def FAN_COOLING_TARGET_ROOM_TEMPERATURE : String := "fan_cooling_target_room_temperature"

def FAN_COOLING_TARGET_FLOW_TEMPERATURE : String := "fan_cooling_target_flow_temperature"

def ACTIVE_ERROR : String := "active_error"

def ERROR_STATUS : String := "error_status"

def ACTUAL_TEMPERATURE_COOLING_FANCOIL : String := "actual_temperature_cooling_fancoil"

def TARGET_TEMPERATURE_COOLING_FANCOIL : String := "target_temperature_cooling_fancoil"

def ACTUAL_TEMPERATURE_COOLING_SURFACE : String := "actual_temperature_cooling_surface"

def TARGET_TEMPERATURE_COOLING_SURFACE : String := "target_temperature_cooling_surface"

def HEATING_CIRCUIT_1_PUMP : String := "heating_circuit_1_pump"

def HEATING_CIRCUIT_2_PUMP : String := "heating_circuit_2_pump"

def HEATING_CIRCUIT_3_PUMP : String := "heating_circuit_3_pump"

def HEATING_CIRCUIT_4_PUMP : String := "heating_circuit_4_pump"

def HEATING_CIRCUIT_5_PUMP : String := "heating_circuit_5_pump"

def BUFFER_1_CHARGING_PUMP : String := "buffer_1_charging_pump"

def BUFFER_2_CHARGING_PUMP : String := "buffer_2_charging_pump"

def BUFFER_3_CHARGING_PUMP : String := "buffer_3_charging_pump"

def BUFFER_4_CHARGING_PUMP : String := "buffer_4_charging_pump"

def BUFFER_5_CHARGING_PUMP : String := "buffer_5_charging_pump"

def BUFFER_6_CHARGING_PUMP : String := "buffer_6_charging_pump"

def DHW_CHARGING_PUMP : String := "dhw_charging_pump"

def SOURCE_PUMP : String := "source_pump"

def DIFF_CONTROLLER_1_PUMP : String := "diff_controller_1_pump"

def DIFF_CONTROLLER_2_PUMP : String := "diff_controller_2_pump"

def POOL_PRIMARY_PUMP : String := "pool_primary_pump"

def POOL_SECONDARY_PUMP : String := "pool_secondary_pump"

def HEAT_PUMP_1_ON : String := "heat_pump_1_on"

def HEAT_PUMP_2_ON : String := "heat_pump_2_on"

def HEAT_PUMP_3_ON : String := "heat_pump_3_on"

def HEAT_PUMP_4_ON : String := "heat_pump_4_on"

def HEAT_PUMP_5_ON : String := "heat_pump_5_on"

def HEAT_PUMP_6_ON : String := "heat_pump_6_on"

def SECOND_GENERATOR_DHW : String := "second_generator_dhw"

def SECOND_GENERATOR_HEATING : String := "second_generator_heating"

def COOLING_MODE : String := "cooling_mode"

def MIXER_OPEN_HTG_CIRCUIT_2 : String := "mixer_open_htg_circuit_2"

def MIXER_OPEN_HTG_CIRCUIT_3 : String := "mixer_open_htg_circuit_3"

def MIXER_OPEN_HTG_CIRCUIT_4 : String := "mixer_open_htg_circuit_4"

def MIXER_OPEN_HTG_CIRCUIT_5 : String := "mixer_open_htg_circuit_5"

def MIXER_CLOSE_HTG_CIRCUIT_2 : String := "mixer_close_htg_circuit_2"

def MIXER_CLOSE_HTG_CIRCUIT_3 : String := "mixer_close_htg_circuit_3"

def MIXER_CLOSE_HTG_CIRCUIT_4 : String := "mixer_close_htg_circuit_4"

def MIXER_CLOSE_HTG_CIRCUIT_5 : String := "mixer_close_htg_circuit_5"

def EMERGENCY_HEATING_1 : String := "emergency_heating_1"

def EMERGENCY_HEATING_2 : String := "emergency_heating_2"

def EMERGENCY_HEATING_1_2 : String := "emergency_heating_1_2"

/-- Modelled from the spec: the fixed average-power constant
`HEATPUMPT_AVERAGE_POWER` comes from `const.py`, which is not under src/;
its exact numeric value is immaterial to every claim, only that it is a
fixed rational constant independent of any register. -/
def HEATPUMPT_AVERAGE_POWER : Rat := 5000

/-! ## Snapshot values -/

/-- A decoded snapshot value.  Python stores booleans, ints, floats
(rationals here), strings, the `None` object, and - in two WPM decoders -
raw register lists. -/
inductive Value where
  | bool (b : Bool)
  | int (n : Int)
  | rat (q : Rat)
  | str (s : String)
  | none
  | list (regs : List Nat)
deriving DecidableEq, Repr

/-- Lift an optional scaled decode result to a stored value: Python stores
the `None` object itself when the codec reports the sentinel. -/
def Value.ofOpt : Option Rat → Value
  | Option.none => Value.none
  | Option.some q => Value.rat q

/-- A value is scalar when it is a boolean, integer, rational, string, or
the absent marker - anything but a raw register list. -/
def Value.isScalar : Value → Bool
  | Value.list _ => false
  | _ => true

/-- The snapshot: a dict from field identifier to decoded value,
represented as an association list with first-match lookup. -/
abbrev Snapshot := List (String × Value)

/-- Dict store `result[k] = v`: the new binding shadows any previous one. -/
def Snapshot.set (s : Snapshot) (k : String) (v : Value) : Snapshot :=
  (k, v) :: s

/-- Dict lookup `result[k]`, returning the most recent binding. -/
def Snapshot.find? : Snapshot → String → Option Value
  | [], _ => Option.none
  | (k, v) :: rest, key => if k = key then Option.some v else Snapshot.find? rest key

/-- Python `{**a, **b}`: the bindings of `b` shadow those of `a`. -/
def dictMerge (a b : Snapshot) : Snapshot := b ++ a

/-! ## Register codec -/

/-- Reinterpret a raw 16-bit register word (0..65535) as a signed 16-bit
integer, as `decode_16bit_int` does. -/
def toSigned (w : Nat) : Int :=
  if w < 32768 then (w : Int) else (w : Int) - 65536

/-- The `BinaryPayloadDecoder` read cursor over a raw register block. -/
structure Decoder where
  regs : List Nat
  pos : Nat
deriving DecidableEq, Repr

/-- Source `decoder.decode_16bit_uint()`: read one word, advance. -/
def Decoder.decode_16bit_uint (d : Decoder) : Nat × Decoder :=
  (d.regs.getD d.pos 0, ⟨d.regs, d.pos + 1⟩)

/-- Source `decoder.decode_16bit_int()`: read one word as signed, advance. -/
def Decoder.decode_16bit_int (d : Decoder) : Int × Decoder :=
  (toSigned (d.regs.getD d.pos 0), ⟨d.regs, d.pos + 1⟩)

/-- Source `decoder.skip_bytes(n)`: advance the cursor by `n / 2` words. -/
def Decoder.skip_bytes (d : Decoder) (n : Nat) : Decoder :=
  ⟨d.regs, d.pos + n / 2⟩

/-- Source (`__init__.py`): `value * 0.1 if value != -32768 else None`.
This is the base-family variant with the fixed divisor 10. -/
def get_isg_scaled_value (value : Int) : Option Rat :=
  if value ≠ -32768 then Option.some ((value : Rat) * (1 / 10)) else Option.none

/-- Modelled from the spec: the WPM coordinator imports
`get_isg_scaled_value` from `coordinator.py`, which is not under src/.
Per the spec, `decode_scaled(raw, divisor=10)` returns `raw / divisor` and
is absent when `raw == -32768`. -/
def get_isg_scaled_value_wpm (value : Int) (factor : Rat := 10) : Option Rat :=
  if value ≠ -32768 then Option.some ((value : Rat) / factor) else Option.none

/-- Python exceptions that a block decode can raise. -/
inductive DecodeErr where
  | keyError
  | typeError
deriving DecidableEq, Repr

/-- Python `x / 10` applied to a value that may be `None`: dividing `None`
raises `TypeError`. -/
def divOpt (v : Option Rat) (q : Rat) : Except DecodeErr Rat :=
  match v with
  | Option.none => Except.error DecodeErr.typeError
  | Option.some x => Except.ok (x / q)

/-- A pymodbus read result: either an error response (`isError()` true) or
a raw register word list of the requested length. -/
inductive ModbusResponse where
  | error
  | ok (registers : List Nat)
deriving DecidableEq, Repr

/-- One `write_registers(address, value, slave)` call recorded by the
write path. -/
structure WriteOp where
  address : Nat
  value : Rat
  slave : Nat
deriving DecidableEq, Repr

/-- Python `int(q)`: truncation toward zero. -/
def truncRat (q : Rat) : Int :=
  if 0 ≤ q then ⌊q⌋ else ⌈q⌉

/-- Stated from the spec for comparison with the code: rounding to the
nearest integer with halves away from zero, the policy the spec prescribes
for `encode_scaled`. -/
def spec_round_half_away (q : Rat) : Int :=
  if 0 ≤ q then ⌊q + 1 / 2⌋ else ⌈q - 1 / 2⌉

/-! ## Base-family coordinator (`__init__.py`) -/

namespace Base

/-- Source `read_modbus_system_state` (`__init__.py`, input registers
2500, count 1): decodes the status word and derives `CONSUMED_POWER` from
the fixed constant, never from a register. -/
def read_modbus_system_state (resp : ModbusResponse) : Except DecodeErr Snapshot :=
  match resp with
  | ModbusResponse.error => Except.ok []
  | ModbusResponse.ok regs =>
    let d : Decoder := ⟨regs, 0⟩
    let (state, _d) := d.decode_16bit_uint
    let result : Snapshot := []
    let is_heating := state &&& (1 <<< 4) != 0
    let result := result.set IS_HEATING (Value.bool is_heating)
    let is_heating_water := state &&& (1 <<< 5) != 0
    let result := result.set IS_HEATING_WATER (Value.bool is_heating_water)
    let result := result.set CONSUMED_POWER
      (Value.rat (if is_heating_water || is_heating then HEATPUMPT_AVERAGE_POWER else 0))
    let result := result.set IS_SUMMER_MODE (Value.bool (state &&& (1 <<< 7) != 0))
    let result := result.set IS_COOLING (Value.bool (state &&& (1 <<< 8) != 0))
    Except.ok result

/-- Source `read_modbus_system_values` (`__init__.py`, input registers
500, count 40).  The `HEATER_PRESSURE` and `VOLUME_STREAM` fields divide
the scaled decode result by 10 a second time; when the scaled decode is
`None` that Python division raises `TypeError`. -/
def read_modbus_system_values (resp : ModbusResponse) : Except DecodeErr Snapshot :=
  match resp with
  | ModbusResponse.error => Except.ok []
  | ModbusResponse.ok regs =>
    let d : Decoder := ⟨regs, 0⟩
    let result : Snapshot := []
    let (v, d) := d.decode_16bit_int
    let result := result.set ACTUAL_TEMPERATURE (Value.ofOpt (get_isg_scaled_value v))
    let (v, d) := d.decode_16bit_int
    let result := result.set TARGET_TEMPERATURE (Value.ofOpt (get_isg_scaled_value v))
    let (v, d) := d.decode_16bit_int
    let result := result.set ACTUAL_TEMPERATURE_FEK (Value.ofOpt (get_isg_scaled_value v))
    let (v, d) := d.decode_16bit_int
    let result := result.set TARGET_TEMPERATURE_FEK (Value.ofOpt (get_isg_scaled_value v))
    let (v, d) := d.decode_16bit_int
    let result := result.set ACTUAL_HUMIDITY (Value.ofOpt (get_isg_scaled_value v))
    let (v, d) := d.decode_16bit_int
    let result := result.set DEWPOINT_TEMPERATURE (Value.ofOpt (get_isg_scaled_value v))
    let (v, d) := d.decode_16bit_int
    let result := result.set OUTDOOR_TEMPERATURE (Value.ofOpt (get_isg_scaled_value v))
    let (v, d) := d.decode_16bit_int
    let result := result.set ACTUAL_TEMPERATURE_HK1 (Value.ofOpt (get_isg_scaled_value v))
    let (v, d) := d.decode_16bit_int
    let _hk1_target := get_isg_scaled_value v
    let (v, d) := d.decode_16bit_int
    let result := result.set TARGET_TEMPERATURE_HK1 (Value.ofOpt (get_isg_scaled_value v))
    let (v, d) := d.decode_16bit_int
    let result := result.set ACTUAL_TEMPERATURE_HK2 (Value.ofOpt (get_isg_scaled_value v))
    let (v, d) := d.decode_16bit_int
    let result := result.set TARGET_TEMPERATURE_HK2 (Value.ofOpt (get_isg_scaled_value v))
    let d := d.skip_bytes 10
    let (v, d) := d.decode_16bit_int
    let result := result.set ACTUAL_TEMPERATURE_BUFFER (Value.ofOpt (get_isg_scaled_value v))
    let (v, d) := d.decode_16bit_int
    let result := result.set TARGET_TEMPERATURE_BUFFER (Value.ofOpt (get_isg_scaled_value v))
    let (v, d) := d.decode_16bit_int
    match divOpt (get_isg_scaled_value v) 10 with
    | Except.error e => Except.error e
    | Except.ok hp =>
    let result := result.set HEATER_PRESSURE (Value.rat hp)
    let (v, d) := d.decode_16bit_int
    match divOpt (get_isg_scaled_value v) 10 with
    | Except.error e => Except.error e
    | Except.ok vs =>
    let result := result.set VOLUME_STREAM (Value.rat vs)
    let (v, d) := d.decode_16bit_int
    let result := result.set ACTUAL_TEMPERATURE_WATER (Value.ofOpt (get_isg_scaled_value v))
    let (v, d) := d.decode_16bit_int
    let result := result.set TARGET_TEMPERATURE_WATER (Value.ofOpt (get_isg_scaled_value v))
    let d := d.skip_bytes 24
    let (v, _d) := d.decode_16bit_int
    let result := result.set SOURCE_TEMPERATURE (Value.ofOpt (get_isg_scaled_value v))
    Except.ok result

/-- Source `read_modbus_system_paramter` (`__init__.py`, holding registers
1500, count 19): only the operation mode is decoded. -/
def read_modbus_system_paramter (resp : ModbusResponse) : Except DecodeErr Snapshot :=
  match resp with
  | ModbusResponse.error => Except.ok []
  | ModbusResponse.ok regs =>
    let d : Decoder := ⟨regs, 0⟩
    let (v, _d) := d.decode_16bit_uint
    let result : Snapshot := []
    let result := result.set OPERATION_MODE (Value.int v)
    Except.ok result

/-- Source `read_modbus_energy` (`__init__.py`, input registers 3500,
count 22): daily counters plus 32-bit totals split as `high * 1000 + low`. -/
def read_modbus_energy (resp : ModbusResponse) : Except DecodeErr Snapshot :=
  match resp with
  | ModbusResponse.error => Except.ok []
  | ModbusResponse.ok regs =>
    let d : Decoder := ⟨regs, 0⟩
    let (produced_heating_today, d) := d.decode_16bit_uint
    let (produced_heating_total_low, d) := d.decode_16bit_uint
    let (produced_heating_total_high, d) := d.decode_16bit_uint
    let (produced_water_today, d) := d.decode_16bit_uint
    let (produced_water_total_low, d) := d.decode_16bit_uint
    let (produced_water_total_high, d) := d.decode_16bit_uint
    let d := d.skip_bytes 8
    let (consumed_heating_today, d) := d.decode_16bit_uint
    let (consumed_heating_total_low, d) := d.decode_16bit_uint
    let (consumed_heating_total_high, d) := d.decode_16bit_uint
    let (consumed_water_today, d) := d.decode_16bit_uint
    let (consumed_water_total_low, d) := d.decode_16bit_uint
    let (consumed_water_total_high, _d) := d.decode_16bit_uint
    let result : Snapshot := []
    let result := result.set PRODUCED_HEATING_TODAY (Value.int produced_heating_today)
    let result := result.set PRODUCED_HEATING_TOTAL
      (Value.int (produced_heating_total_high * 1000 + produced_heating_total_low))
    let result := result.set PRODUCED_WATER_HEATING_TODAY (Value.int produced_water_today)
    let result := result.set PRODUCED_WATER_HEATING_TOTAL
      (Value.int (produced_water_total_high * 1000 + produced_water_total_low))
    let result := result.set CONSUMED_HEATING_TODAY (Value.int consumed_heating_today)
    let result := result.set CONSUMED_HEATING_TOTAL
      (Value.int (consumed_heating_total_high * 1000 + consumed_heating_total_low))
    let result := result.set CONSUMED_WATER_HEATING_TODAY (Value.int consumed_water_today)
    let result := result.set CONSUMED_WATER_HEATING_TOTAL
      (Value.int (consumed_water_total_high * 1000 + consumed_water_total_low))
    Except.ok result

/-- Source `read_modbus_sg_ready` (`__init__.py`): one input-register read
at 5000 (count 2, state word plus the model-id word, which only sets the
coordinator model name) and one holding-register read at 4000 (count 3). -/
def read_modbus_sg_ready (respInput respHolding : ModbusResponse) :
    Except DecodeErr Snapshot :=
  let result : Snapshot := []
  let result :=
    match respInput with
    | ModbusResponse.error => result
    | ModbusResponse.ok regs =>
      let d : Decoder := ⟨regs, 0⟩
      let (v, d) := d.decode_16bit_uint
      let result := result.set SG_READY_STATE (Value.int v)
      let (_model, _d) := d.decode_16bit_uint
      result
  let result :=
    match respHolding with
    | ModbusResponse.error => result
    | ModbusResponse.ok regs =>
      let d : Decoder := ⟨regs, 0⟩
      let (v, d) := d.decode_16bit_uint
      let result := result.set SG_READY_ACTIVE (Value.int v)
      let (v, d) := d.decode_16bit_uint
      let result := result.set SG_READY_INPUT_1 (Value.int v)
      let (v, _d) := d.decode_16bit_uint
      let result := result.set SG_READY_INPUT_2 (Value.int v)
      result
  Except.ok result

/-- The raw responses one base-family poll cycle works from, one per
register-block read issued by `read_modbus_data`. -/
structure Responses where
  energy : ModbusResponse
  system_state : ModbusResponse
  system_values : ModbusResponse
  system_paramter : ModbusResponse
  sg_ready_input : ModbusResponse
  sg_ready_holding : ModbusResponse
deriving DecidableEq, Repr

/-- Source `read_modbus_data` (`__init__.py`): one full poll cycle builds
`{**energy, **state, **values, **paramter, **sg_ready}` - a fresh dict
merged from the per-block reads in this fixed order. -/
def read_modbus_data (r : Responses) : Except DecodeErr Snapshot :=
  match read_modbus_energy r.energy with
  | Except.error e => Except.error e
  | Except.ok en =>
  match read_modbus_system_state r.system_state with
  | Except.error e => Except.error e
  | Except.ok st =>
  match read_modbus_system_values r.system_values with
  | Except.error e => Except.error e
  | Except.ok sv =>
  match read_modbus_system_paramter r.system_paramter with
  | Except.error e => Except.error e
  | Except.ok sp =>
  match read_modbus_sg_ready r.sg_ready_input r.sg_ready_holding with
  | Except.error e => Except.error e
  | Except.ok sg =>
  Except.ok (dictMerge (dictMerge (dictMerge (dictMerge en st) sv) sp) sg)

/-- Source `_async_update_data` plus the host coordinator contract
(modelled from the spec): on success the returned dict becomes the new
snapshot; when the cycle raises, `UpdateFailed` is reported and the
previously known snapshot is left in place. -/
def async_update_data (prev : Option Snapshot) (r : Responses) : Option Snapshot :=
  match read_modbus_data r with
  | Except.ok s => Option.some s
  | Except.error _ => prev

/-- The field identifiers the base-family `set_data` knows how to write. -/
def writableKeys : List String :=
  [SG_READY_ACTIVE, SG_READY_INPUT_1, SG_READY_INPUT_2, OPERATION_MODE]

/-- Source `set_data` (`__init__.py`): a known field performs one
`write_registers` call and then optimistically stores the passed value in
the snapshot; an unknown field returns without writing or storing. -/
def set_data (data : Snapshot) (key : String) (value : Rat) :
    List WriteOp × Snapshot :=
  if key = SG_READY_ACTIVE then ([⟨4000, value, 1⟩], data.set key (Value.rat value))
  else if key = SG_READY_INPUT_1 then ([⟨4001, value, 1⟩], data.set key (Value.rat value))
  else if key = SG_READY_INPUT_2 then ([⟨4002, value, 1⟩], data.set key (Value.rat value))
  else if key = OPERATION_MODE then ([⟨1500, value, 1⟩], data.set key (Value.rat value))
  else ([], data)

end Base

/-! ## WPM-family coordinator (`wpm_coordinator.py`) -/

namespace Wpm

/-- The repeated source pattern for registers 2517-2547:
`v = decoder.decode_16bit_uint(); if v != 32768: result[KEY] = v`. -/
def stepSet (dr : Snapshot × Decoder) (k : String) : Snapshot × Decoder :=
  let (v, d) := dr.2.decode_16bit_uint
  if v ≠ 32768 then (dr.1.set k (Value.int v), d) else (dr.1, d)

/-- The repeated source pattern for registers 2509-2515:
`v = decoder.decode_16bit_uint(); if v != 32768: result[KEY]` - an
expression statement that reads the dict entry without assigning it, and
hence raises `KeyError` when the key is missing. -/
def stepLookup (dr : Snapshot × Decoder) (k : String) :
    Except DecodeErr (Snapshot × Decoder) :=
  let (v, d) := dr.2.decode_16bit_uint
  if v ≠ 32768 then
    match dr.1.find? k with
    | Option.some _ => Except.ok (dr.1, d)
    | Option.none => Except.error DecodeErr.keyError
  else Except.ok (dr.1, d)

/-- Apply `stepSet` to the listed keys, one register word each, in source
order. -/
def stepSets (dr : Snapshot × Decoder) (keys : List String) : Snapshot × Decoder :=
  keys.foldl stepSet dr

/-- Apply `stepLookup` to the listed keys, one register word each, in
source order, propagating the first `KeyError`. -/
def stepLookups (dr : Snapshot × Decoder) : List String → Except DecodeErr (Snapshot × Decoder)
  | [] => Except.ok dr
  | k :: ks =>
    match stepLookup dr k with
    | Except.error e => Except.error e
    | Except.ok dr2 => stepLookups dr2 ks

/-- The seven register-2509..2515 keys read with the assignment-less
`result[KEY]` pattern, in source order. -/
def lookupPatternKeys : List String :=
  [HEATING_CIRCUIT_1_PUMP, HEATING_CIRCUIT_2_PUMP, HEATING_CIRCUIT_3_PUMP,
   BUFFER_1_CHARGING_PUMP, BUFFER_2_CHARGING_PUMP, DHW_CHARGING_PUMP, SOURCE_PUMP]

/-- The thirty-one register-2517..2547 keys stored with the guarded
`result[KEY] = v` pattern, in source order. -/
def setPatternKeys : List String :=
  [CIRCULATION_PUMP, SECOND_GENERATOR_DHW, SECOND_GENERATOR_HEATING, COOLING_MODE,
   MIXER_OPEN_HTG_CIRCUIT_2, MIXER_CLOSE_HTG_CIRCUIT_2,
   MIXER_OPEN_HTG_CIRCUIT_3, MIXER_CLOSE_HTG_CIRCUIT_3,
   EMERGENCY_HEATING_1, EMERGENCY_HEATING_2, EMERGENCY_HEATING_1_2,
   HEATING_CIRCUIT_4_PUMP, HEATING_CIRCUIT_5_PUMP,
   BUFFER_3_CHARGING_PUMP, BUFFER_4_CHARGING_PUMP, BUFFER_5_CHARGING_PUMP,
   BUFFER_6_CHARGING_PUMP, DIFF_CONTROLLER_1_PUMP, DIFF_CONTROLLER_2_PUMP,
   POOL_PRIMARY_PUMP, POOL_SECONDARY_PUMP,
   MIXER_OPEN_HTG_CIRCUIT_4, MIXER_CLOSE_HTG_CIRCUIT_4,
   MIXER_OPEN_HTG_CIRCUIT_5, MIXER_CLOSE_HTG_CIRCUIT_5,
   HEAT_PUMP_1_ON, HEAT_PUMP_2_ON, HEAT_PUMP_3_ON, HEAT_PUMP_4_ON,
   HEAT_PUMP_5_ON, HEAT_PUMP_6_ON]

/-- The source region for registers 2509-2547: the seven assignment-less
lookup-pattern words, the skip of reserved word 2516, and the thirty-one
guarded-store words, ending in the block result. -/
def read_modbus_system_state_tail (rd : Snapshot × Decoder) : Except DecodeErr Snapshot :=
  match stepLookups rd lookupPatternKeys with
  | Except.error e => Except.error e
  | Except.ok rd2 =>
    Except.ok ((stepSets (rd2.1, rd2.2.skip_bytes 2) setPatternKeys).1)

/-- Source `read_modbus_system_state` (`wpm_coordinator.py`, input
registers 2500, count 47): word 2501 carries ten status bits, 2504 the
error status, 2507 the active-error word, 2509-2515 and 2517-2547 the
optional pump/mixer/heat-pump status words with sentinel 32768. -/
def read_modbus_system_state (resp : ModbusResponse) : Except DecodeErr Snapshot :=
  match resp with
  | ModbusResponse.error => Except.ok []
  | ModbusResponse.ok regs =>
    let d : Decoder := ⟨regs, 0⟩
    let (state, d) := d.decode_16bit_uint
    let result : Snapshot := []
    let result := result.set PUMP_ON_HK1 (Value.bool (state &&& (1 <<< 0) != 0))
    let result := result.set PUMP_ON_HK2 (Value.bool (state &&& (1 <<< 1) != 0))
    let result := result.set HEAT_UP_PROGRAM (Value.bool (state &&& (1 <<< 2) != 0))
    let result := result.set NHZ_STAGES_RUNNING (Value.bool (state &&& (1 <<< 3) != 0))
    let result := result.set IS_HEATING (Value.bool (state &&& (1 <<< 4) != 0))
    let result := result.set IS_HEATING_WATER (Value.bool (state &&& (1 <<< 5) != 0))
    let result := result.set COMPRESSOR_ON (Value.bool (state &&& (1 <<< 6) != 0))
    let result := result.set IS_SUMMER_MODE (Value.bool (state &&& (1 <<< 7) != 0))
    let result := result.set IS_COOLING (Value.bool (state &&& (1 <<< 8) != 0))
    let result := result.set EVAPORATOR_DEFROST (Value.bool (state &&& (1 <<< 9) != 0))
    let d := d.skip_bytes 4
    let (error_status, d) := d.decode_16bit_uint
    let result := result.set ERROR_STATUS (Value.int error_status)
    let d := d.skip_bytes 4
    let (error, d) := d.decode_16bit_uint
    let result :=
      if error = 32768 then result.set ACTIVE_ERROR (Value.str "no error")
      else result.set ACTIVE_ERROR (Value.str ("error " ++ toString error))
    let d := d.skip_bytes 2
    read_modbus_system_state_tail (result, d)

/-- Source `read_modbus_system_values` (`wpm_coordinator.py`, input
registers 500, count 111).  Every field goes through the divisor-aware
scaled decode; the raw register list is additionally stored verbatim
under the literal key `system_values`. -/
def read_modbus_system_values (resp : ModbusResponse) : Except DecodeErr Snapshot :=
  match resp with
  | ModbusResponse.error => Except.ok []
  | ModbusResponse.ok regs =>
    let d : Decoder := ⟨regs, 0⟩
    let result : Snapshot := []
    let (v, d) := d.decode_16bit_int
    let result := result.set ACTUAL_TEMPERATURE (Value.ofOpt (get_isg_scaled_value_wpm v))
    let (v, d) := d.decode_16bit_int
    let result := result.set TARGET_TEMPERATURE (Value.ofOpt (get_isg_scaled_value_wpm v))
    let (v, d) := d.decode_16bit_int
    let result := result.set ACTUAL_TEMPERATURE_FEK (Value.ofOpt (get_isg_scaled_value_wpm v))
    let (v, d) := d.decode_16bit_int
    let result := result.set TARGET_TEMPERATURE_FEK (Value.ofOpt (get_isg_scaled_value_wpm v))
    let (v, d) := d.decode_16bit_int
    let result := result.set ACTUAL_HUMIDITY (Value.ofOpt (get_isg_scaled_value_wpm v))
    let (v, d) := d.decode_16bit_int
    let result := result.set DEWPOINT_TEMPERATURE (Value.ofOpt (get_isg_scaled_value_wpm v))
    let (v, d) := d.decode_16bit_int
    let result := result.set OUTDOOR_TEMPERATURE (Value.ofOpt (get_isg_scaled_value_wpm v))
    let (v, d) := d.decode_16bit_int
    let result := result.set ACTUAL_TEMPERATURE_HK1 (Value.ofOpt (get_isg_scaled_value_wpm v))
    let d := d.skip_bytes 2
    let (v, d) := d.decode_16bit_int
    let result := result.set TARGET_TEMPERATURE_HK1 (Value.ofOpt (get_isg_scaled_value_wpm v))
    let (v, d) := d.decode_16bit_int
    let result := result.set ACTUAL_TEMPERATURE_HK2 (Value.ofOpt (get_isg_scaled_value_wpm v))
    let (v, d) := d.decode_16bit_int
    let result := result.set TARGET_TEMPERATURE_HK2 (Value.ofOpt (get_isg_scaled_value_wpm v))
    let (v, d) := d.decode_16bit_int
    let result := result.set FLOW_TEMPERATURE (Value.ofOpt (get_isg_scaled_value_wpm v))
    let (v, d) := d.decode_16bit_int
    let result := result.set FLOW_TEMPERATURE_NHZ (Value.ofOpt (get_isg_scaled_value_wpm v))
    let d := d.skip_bytes 2
    let (v, d) := d.decode_16bit_int
    let result := result.set RETURN_TEMPERATURE (Value.ofOpt (get_isg_scaled_value_wpm v))
    let d := d.skip_bytes 2
    let (v, d) := d.decode_16bit_int
    let result := result.set ACTUAL_TEMPERATURE_BUFFER (Value.ofOpt (get_isg_scaled_value_wpm v))
    let (v, d) := d.decode_16bit_int
    let result := result.set TARGET_TEMPERATURE_BUFFER (Value.ofOpt (get_isg_scaled_value_wpm v))
    let (v, d) := d.decode_16bit_int
    let result := result.set HEATER_PRESSURE (Value.ofOpt (get_isg_scaled_value_wpm v 100))
    let (v, d) := d.decode_16bit_int
    let result := result.set VOLUME_STREAM (Value.ofOpt (get_isg_scaled_value_wpm v 100))
    let (v, d) := d.decode_16bit_int
    let result := result.set ACTUAL_TEMPERATURE_WATER (Value.ofOpt (get_isg_scaled_value_wpm v))
    let (v, d) := d.decode_16bit_int
    let result := result.set TARGET_TEMPERATURE_WATER (Value.ofOpt (get_isg_scaled_value_wpm v))
    let (v, d) := d.decode_16bit_int
    let result := result.set ACTUAL_TEMPERATURE_COOLING_FANCOIL (Value.ofOpt (get_isg_scaled_value_wpm v))
    let (v, d) := d.decode_16bit_int
    let result := result.set TARGET_TEMPERATURE_COOLING_FANCOIL (Value.ofOpt (get_isg_scaled_value_wpm v))
    let (v, d) := d.decode_16bit_int
    let result := result.set ACTUAL_TEMPERATURE_COOLING_SURFACE (Value.ofOpt (get_isg_scaled_value_wpm v))
    let (v, d) := d.decode_16bit_int
    let result := result.set TARGET_TEMPERATURE_COOLING_SURFACE (Value.ofOpt (get_isg_scaled_value_wpm v))
    let d := d.skip_bytes 16
    let (v, d) := d.decode_16bit_int
    let result := result.set SOURCE_TEMPERATURE (Value.ofOpt (get_isg_scaled_value_wpm v))
    let d := d.skip_bytes 2
    let (v, d) := d.decode_16bit_int
    let result := result.set SOURCE_PRESSURE (Value.ofOpt (get_isg_scaled_value_wpm v 100))
    let (v, d) := d.decode_16bit_int
    let result := result.set HOT_GAS_TEMPERATURE (Value.ofOpt (get_isg_scaled_value_wpm v))
    let (v, d) := d.decode_16bit_int
    let result := result.set HIGH_PRESSURE (Value.ofOpt (get_isg_scaled_value_wpm v))
    let (v, d) := d.decode_16bit_int
    let result := result.set LOW_PRESSURE (Value.ofOpt (get_isg_scaled_value_wpm v))
    let (v, d) := d.decode_16bit_int
    let result := result.set RETURN_TEMPERATURE_WP1 (Value.ofOpt (get_isg_scaled_value_wpm v))
    let (v, d) := d.decode_16bit_int
    let result := result.set FLOW_TEMPERATURE_WP1 (Value.ofOpt (get_isg_scaled_value_wpm v))
    let (v, d) := d.decode_16bit_int
    let result := result.set HOT_GAS_TEMPERATURE_WP1 (Value.ofOpt (get_isg_scaled_value_wpm v))
    let (v, d) := d.decode_16bit_int
    let result := result.set LOW_PRESSURE_WP1 (Value.ofOpt (get_isg_scaled_value_wpm v 100))
    let d := d.skip_bytes 2
    let (v, d) := d.decode_16bit_int
    let result := result.set HIGH_PRESSURE_WP1 (Value.ofOpt (get_isg_scaled_value_wpm v 100))
    let (v, d) := d.decode_16bit_int
    let result := result.set VOLUME_STREAM_WP1 (Value.ofOpt (get_isg_scaled_value_wpm v 10))
    let (v, d) := d.decode_16bit_int
    let result := result.set RETURN_TEMPERATURE_WP2 (Value.ofOpt (get_isg_scaled_value_wpm v))
    let (v, d) := d.decode_16bit_int
    let result := result.set FLOW_TEMPERATURE_WP2 (Value.ofOpt (get_isg_scaled_value_wpm v))
    let (v, d) := d.decode_16bit_int
    let result := result.set HOT_GAS_TEMPERATURE_WP2 (Value.ofOpt (get_isg_scaled_value_wpm v))
    let (v, d) := d.decode_16bit_int
    let result := result.set LOW_PRESSURE_WP2 (Value.ofOpt (get_isg_scaled_value_wpm v 100))
    let d := d.skip_bytes 2
    let (v, d) := d.decode_16bit_int
    let result := result.set HIGH_PRESSURE_WP2 (Value.ofOpt (get_isg_scaled_value_wpm v 100))
    let (v, d) := d.decode_16bit_int
    let result := result.set VOLUME_STREAM_WP2 (Value.ofOpt (get_isg_scaled_value_wpm v 10))
    let d := d.skip_bytes 56
    let (v, d) := d.decode_16bit_int
    let result := result.set ACTUAL_ROOM_TEMPERATURE_HK1 (Value.ofOpt (get_isg_scaled_value_wpm v))
    let (v, d) := d.decode_16bit_int
    let result := result.set TARGET_ROOM_TEMPERATURE_HK1 (Value.ofOpt (get_isg_scaled_value_wpm v))
    let (v, d) := d.decode_16bit_int
    let result := result.set ACTUAL_HUMIDITY_HK1 (Value.ofOpt (get_isg_scaled_value_wpm v))
    let (v, d) := d.decode_16bit_int
    let result := result.set DEWPOINT_TEMPERATURE_HK1 (Value.ofOpt (get_isg_scaled_value_wpm v))
    let (v, d) := d.decode_16bit_int
    let result := result.set ACTUAL_ROOM_TEMPERATURE_HK2 (Value.ofOpt (get_isg_scaled_value_wpm v))
    let (v, d) := d.decode_16bit_int
    let result := result.set TARGET_ROOM_TEMPERATURE_HK2 (Value.ofOpt (get_isg_scaled_value_wpm v))
    let (v, d) := d.decode_16bit_int
    let result := result.set ACTUAL_HUMIDITY_HK2 (Value.ofOpt (get_isg_scaled_value_wpm v))
    let (v, d) := d.decode_16bit_int
    let result := result.set DEWPOINT_TEMPERATURE_HK2 (Value.ofOpt (get_isg_scaled_value_wpm v))
    let (v, d) := d.decode_16bit_int
    let result := result.set ACTUAL_ROOM_TEMPERATURE_HK3 (Value.ofOpt (get_isg_scaled_value_wpm v))
    let (v, d) := d.decode_16bit_int
    let result := result.set TARGET_ROOM_TEMPERATURE_HK3 (Value.ofOpt (get_isg_scaled_value_wpm v))
    let (v, d) := d.decode_16bit_int
    let result := result.set ACTUAL_HUMIDITY_HK3 (Value.ofOpt (get_isg_scaled_value_wpm v))
    let (v, d) := d.decode_16bit_int
    let result := result.set DEWPOINT_TEMPERATURE_HK3 (Value.ofOpt (get_isg_scaled_value_wpm v))
    let d := d.skip_bytes 26
    let (v, d) := d.decode_16bit_int
    let result := result.set ACTUAL_TEMPERATURE_HK3 (Value.ofOpt (get_isg_scaled_value_wpm v))
    let (v, _d) := d.decode_16bit_int
    let result := result.set TARGET_TEMPERATURE_HK3 (Value.ofOpt (get_isg_scaled_value_wpm v))
    let result := result.set "system_values" (Value.list regs)
    Except.ok result

/-- Source `read_modbus_system_paramter` (`wpm_coordinator.py`, holding
registers 1500, count 19).  The raw register list is additionally stored
verbatim under the literal key `system_paramaters` (source spelling). -/
def read_modbus_system_paramter (resp : ModbusResponse) : Except DecodeErr Snapshot :=
  match resp with
  | ModbusResponse.error => Except.ok []
  | ModbusResponse.ok regs =>
    let d : Decoder := ⟨regs, 0⟩
    let result : Snapshot := []
    let (v, d) := d.decode_16bit_uint
    let result := result.set OPERATION_MODE (Value.int v)
    let (v, d) := d.decode_16bit_int
    let result := result.set COMFORT_TEMPERATURE_TARGET_HK1 (Value.ofOpt (get_isg_scaled_value_wpm v))
    let (v, d) := d.decode_16bit_int
    let result := result.set ECO_TEMPERATURE_TARGET_HK1 (Value.ofOpt (get_isg_scaled_value_wpm v))
    let (v, d) := d.decode_16bit_int
    let result := result.set HEATING_CURVE_RISE_HK1 (Value.ofOpt (get_isg_scaled_value_wpm v 100))
    let (v, d) := d.decode_16bit_int
    let result := result.set COMFORT_TEMPERATURE_TARGET_HK2 (Value.ofOpt (get_isg_scaled_value_wpm v))
    let (v, d) := d.decode_16bit_int
    let result := result.set ECO_TEMPERATURE_TARGET_HK2 (Value.ofOpt (get_isg_scaled_value_wpm v))
    let (v, d) := d.decode_16bit_int
    let result := result.set HEATING_CURVE_RISE_HK2 (Value.ofOpt (get_isg_scaled_value_wpm v 100))
    let d := d.skip_bytes 2
    let (v, d) := d.decode_16bit_int
    let result := result.set DUALMODE_TEMPERATURE_HZG (Value.ofOpt (get_isg_scaled_value_wpm v 10))
    let (v, d) := d.decode_16bit_int
    let result := result.set COMFORT_WATER_TEMPERATURE_TARGET (Value.ofOpt (get_isg_scaled_value_wpm v))
    let (v, d) := d.decode_16bit_int
    let result := result.set ECO_WATER_TEMPERATURE_TARGET (Value.ofOpt (get_isg_scaled_value_wpm v))
    let d := d.skip_bytes 2
    let (v, d) := d.decode_16bit_int
    let result := result.set DUALMODE_TEMPERATURE_WW (Value.ofOpt (get_isg_scaled_value_wpm v 10))
    let (v, d) := d.decode_16bit_int
    let result := result.set AREA_COOLING_TARGET_FLOW_TEMPERATURE (Value.ofOpt (get_isg_scaled_value_wpm v))
    let d := d.skip_bytes 2
    let (v, d) := d.decode_16bit_int
    let result := result.set AREA_COOLING_TARGET_ROOM_TEMPERATURE (Value.ofOpt (get_isg_scaled_value_wpm v))
    let (v, d) := d.decode_16bit_int
    let result := result.set FAN_COOLING_TARGET_FLOW_TEMPERATURE (Value.ofOpt (get_isg_scaled_value_wpm v))
    let d := d.skip_bytes 2
    let (v, _d) := d.decode_16bit_int
    let result := result.set FAN_COOLING_TARGET_ROOM_TEMPERATURE (Value.ofOpt (get_isg_scaled_value_wpm v))
    let result := result.set "system_paramaters" (Value.list regs)
    Except.ok result

/-- Source `read_modbus_energy` (`wpm_coordinator.py`): textually the same
block decode as the base family (input registers 3500, count 22). -/
def read_modbus_energy (resp : ModbusResponse) : Except DecodeErr Snapshot :=
  match resp with
  | ModbusResponse.error => Except.ok []
  | ModbusResponse.ok regs =>
    let d : Decoder := ⟨regs, 0⟩
    let (produced_heating_today, d) := d.decode_16bit_uint
    let (produced_heating_total_low, d) := d.decode_16bit_uint
    let (produced_heating_total_high, d) := d.decode_16bit_uint
    let (produced_water_today, d) := d.decode_16bit_uint
    let (produced_water_total_low, d) := d.decode_16bit_uint
    let (produced_water_total_high, d) := d.decode_16bit_uint
    let d := d.skip_bytes 8
    let (consumed_heating_today, d) := d.decode_16bit_uint
    let (consumed_heating_total_low, d) := d.decode_16bit_uint
    let (consumed_heating_total_high, d) := d.decode_16bit_uint
    let (consumed_water_today, d) := d.decode_16bit_uint
    let (consumed_water_total_low, d) := d.decode_16bit_uint
    let (consumed_water_total_high, _d) := d.decode_16bit_uint
    let result : Snapshot := []
    let result := result.set PRODUCED_HEATING_TODAY (Value.int produced_heating_today)
    let result := result.set PRODUCED_HEATING_TOTAL
      (Value.int (produced_heating_total_high * 1000 + produced_heating_total_low))
    let result := result.set PRODUCED_WATER_HEATING_TODAY (Value.int produced_water_today)
    let result := result.set PRODUCED_WATER_HEATING_TOTAL
      (Value.int (produced_water_total_high * 1000 + produced_water_total_low))
    let result := result.set CONSUMED_HEATING_TODAY (Value.int consumed_heating_today)
    let result := result.set CONSUMED_HEATING_TOTAL
      (Value.int (consumed_heating_total_high * 1000 + consumed_heating_total_low))
    let result := result.set CONSUMED_WATER_HEATING_TODAY (Value.int consumed_water_today)
    let result := result.set CONSUMED_WATER_HEATING_TOTAL
      (Value.int (consumed_water_total_high * 1000 + consumed_water_total_low))
    Except.ok result

/-- The field identifiers the WPM `set_data` knows how to write. -/
def writableKeys : List String :=
  [SG_READY_ACTIVE, SG_READY_INPUT_1, SG_READY_INPUT_2, OPERATION_MODE,
   COMFORT_TEMPERATURE_TARGET_HK1, ECO_TEMPERATURE_TARGET_HK1, HEATING_CURVE_RISE_HK1,
   COMFORT_TEMPERATURE_TARGET_HK2, ECO_TEMPERATURE_TARGET_HK2, HEATING_CURVE_RISE_HK2,
   DUALMODE_TEMPERATURE_HZG, COMFORT_WATER_TEMPERATURE_TARGET,
   ECO_WATER_TEMPERATURE_TARGET, DUALMODE_TEMPERATURE_WW,
   AREA_COOLING_TARGET_FLOW_TEMPERATURE, AREA_COOLING_TARGET_ROOM_TEMPERATURE,
   FAN_COOLING_TARGET_FLOW_TEMPERATURE, FAN_COOLING_TARGET_ROOM_TEMPERATURE,
   CIRCULATION_PUMP]

/-- The scaled writable fields of the WPM `set_data`: field id, write
address, and the scale the value is multiplied by before the Python
`int(...)` truncation. -/
def scaledWriteFields : List (String × Nat × Rat) :=
  [(COMFORT_TEMPERATURE_TARGET_HK1, 1501, 10), (ECO_TEMPERATURE_TARGET_HK1, 1502, 10),
   (HEATING_CURVE_RISE_HK1, 1503, 100),
   (COMFORT_TEMPERATURE_TARGET_HK2, 1504, 10), (ECO_TEMPERATURE_TARGET_HK2, 1505, 10),
   (HEATING_CURVE_RISE_HK2, 1506, 100),
   (DUALMODE_TEMPERATURE_HZG, 1508, 10), (COMFORT_WATER_TEMPERATURE_TARGET, 1509, 10),
   (ECO_WATER_TEMPERATURE_TARGET, 1510, 10), (DUALMODE_TEMPERATURE_WW, 1512, 10),
   (AREA_COOLING_TARGET_FLOW_TEMPERATURE, 1513, 10),
   (AREA_COOLING_TARGET_ROOM_TEMPERATURE, 1515, 10),
   (FAN_COOLING_TARGET_FLOW_TEMPERATURE, 1516, 10),
   (FAN_COOLING_TARGET_ROOM_TEMPERATURE, 1518, 10)]

/-- Source `set_data` (`wpm_coordinator.py`): a known field performs one
`write_registers` call - scaled fields write `int(value * scale)` - and
then optimistically stores the passed value; an unknown field returns
without writing or storing. -/
def set_data (data : Snapshot) (key : String) (value : Rat) :
    List WriteOp × Snapshot :=
  if key = SG_READY_ACTIVE then ([⟨4000, value, 1⟩], data.set key (Value.rat value))
  else if key = SG_READY_INPUT_1 then ([⟨4001, value, 1⟩], data.set key (Value.rat value))
  else if key = SG_READY_INPUT_2 then ([⟨4002, value, 1⟩], data.set key (Value.rat value))
  else if key = OPERATION_MODE then ([⟨1500, value, 1⟩], data.set key (Value.rat value))
  else if key = COMFORT_TEMPERATURE_TARGET_HK1 then
    ([⟨1501, (truncRat (value * 10) : Rat), 1⟩], data.set key (Value.rat value))
  else if key = ECO_TEMPERATURE_TARGET_HK1 then
    ([⟨1502, (truncRat (value * 10) : Rat), 1⟩], data.set key (Value.rat value))
  else if key = HEATING_CURVE_RISE_HK1 then
    ([⟨1503, (truncRat (value * 100) : Rat), 1⟩], data.set key (Value.rat value))
  else if key = COMFORT_TEMPERATURE_TARGET_HK2 then
    ([⟨1504, (truncRat (value * 10) : Rat), 1⟩], data.set key (Value.rat value))
  else if key = ECO_TEMPERATURE_TARGET_HK2 then
    ([⟨1505, (truncRat (value * 10) : Rat), 1⟩], data.set key (Value.rat value))
  else if key = HEATING_CURVE_RISE_HK2 then
    ([⟨1506, (truncRat (value * 100) : Rat), 1⟩], data.set key (Value.rat value))
  else if key = DUALMODE_TEMPERATURE_HZG then
    ([⟨1508, (truncRat (value * 10) : Rat), 1⟩], data.set key (Value.rat value))
  else if key = COMFORT_WATER_TEMPERATURE_TARGET then
    ([⟨1509, (truncRat (value * 10) : Rat), 1⟩], data.set key (Value.rat value))
  else if key = ECO_WATER_TEMPERATURE_TARGET then
    ([⟨1510, (truncRat (value * 10) : Rat), 1⟩], data.set key (Value.rat value))
  else if key = DUALMODE_TEMPERATURE_WW then
    ([⟨1512, (truncRat (value * 10) : Rat), 1⟩], data.set key (Value.rat value))
  else if key = AREA_COOLING_TARGET_FLOW_TEMPERATURE then
    ([⟨1513, (truncRat (value * 10) : Rat), 1⟩], data.set key (Value.rat value))
  else if key = AREA_COOLING_TARGET_ROOM_TEMPERATURE then
    ([⟨1515, (truncRat (value * 10) : Rat), 1⟩], data.set key (Value.rat value))
  else if key = FAN_COOLING_TARGET_FLOW_TEMPERATURE then
    ([⟨1516, (truncRat (value * 10) : Rat), 1⟩], data.set key (Value.rat value))
  else if key = FAN_COOLING_TARGET_ROOM_TEMPERATURE then
    ([⟨1518, (truncRat (value * 10) : Rat), 1⟩], data.set key (Value.rat value))
  else if key = CIRCULATION_PUMP then
    ([⟨47012, value, 1⟩], data.set key (Value.rat value))
  else ([], data)

/-- Source `async_reset_heatpump` (`wpm_coordinator.py`, wired to the
WPM-only reset button in `button.py`): one write of value 3 to holding
register 1519 on unit 1; the snapshot is not touched. -/
def async_reset_heatpump (data : Snapshot) : List WriteOp × Snapshot :=
  ([⟨1519, 3, 1⟩], data)

end Wpm

/-! ## Concrete register blocks and cycle inputs used by the theorems -/

/-- A register block of 40 zero words for the base system-values read. -/
def zeros40 : List Nat := List.replicate 40 0

/-- A register block of 19 zero words for the system-parameter read. -/
def zeros19 : List Nat := List.replicate 19 0

/-- A register block of 22 zero words for the energy read. -/
def zeros22 : List Nat := List.replicate 22 0

/-- A register block of 111 zero words for the WPM system-values read. -/
def zeros111 : List Nat := List.replicate 111 0

/-- A 47-word WPM system-state block: status word 272 (bits 4 and 8 set),
every other word the 32768 sentinel, except register 2509 (index 8) which
carries the non-sentinel value 1. -/
def c1FailingBlock : List Nat := ((List.replicate 47 32768).set 0 272).set 8 1

/-- A 47-word WPM system-state block with status word 272, error status 5
(register 2504), active error 7 (register 2507), circulation pump 1
(register 2517), and the 32768 sentinel everywhere else. -/
def c1SentinelBlock : List Nat :=
  (((((List.replicate 47 32768).set 0 272).set 3 5).set 6 7).set 16 1)

/-- The snapshot the WPM system-state decoder produces for
`c1SentinelBlock`. -/
def c1SentinelResult : Snapshot :=
  [(CIRCULATION_PUMP, Value.int 1),
   (ACTIVE_ERROR, Value.str "error 7"),
   (ERROR_STATUS, Value.int 5),
   (EVAPORATOR_DEFROST, Value.bool false),
   (IS_COOLING, Value.bool true),
   (IS_SUMMER_MODE, Value.bool false),
   (COMPRESSOR_ON, Value.bool false),
   (IS_HEATING_WATER, Value.bool false),
   (IS_HEATING, Value.bool true),
   (NHZ_STAGES_RUNNING, Value.bool false),
   (HEAT_UP_PROGRAM, Value.bool false),
   (PUMP_ON_HK2, Value.bool false),
   (PUMP_ON_HK1, Value.bool false)]

/-- A 40-word base system-values block that is all zeros except register
520 (index 19, `HEATER_PRESSURE`), which carries the raw sentinel word
0x8000 = 32768, i.e. the signed value -32768. -/
def c2FailingBlock : List Nat := (List.replicate 40 0).set 19 32768

/-- A base-family poll cycle in which every block read fails. -/
def allErrorResponses : Base.Responses :=
  ⟨ModbusResponse.error, ModbusResponse.error, ModbusResponse.error,
   ModbusResponse.error, ModbusResponse.error, ModbusResponse.error⟩

/-- A previous snapshot that knows the lifetime heating production. -/
def prevSnapshotC3 : Snapshot := [(PRODUCED_HEATING_TOTAL, Value.int 42)]

/-- A base-family poll cycle in which the energy block read fails while
every other block read succeeds with all-zero registers. -/
def responsesC3 : Base.Responses :=
  ⟨ModbusResponse.error, ModbusResponse.ok [0], ModbusResponse.ok zeros40,
   ModbusResponse.ok zeros19, ModbusResponse.ok [0, 0], ModbusResponse.ok [0, 0, 0]⟩

/-- The snapshot the base system-state decoder produces for the all-zero
status word. -/
def baseStateZeroResult : Snapshot :=
  [(IS_COOLING, Value.bool false),
   (IS_SUMMER_MODE, Value.bool false),
   (CONSUMED_POWER, Value.rat 0),
   (IS_HEATING_WATER, Value.bool false),
   (IS_HEATING, Value.bool false)]

/-- The per-entry shape invariant of the amended snapshot claim: every
stored value is scalar, except that the raw register list may sit under
the two literal debug keys of the WPM decoders. -/
def c8ok (kv : String × Value) : Bool :=
  kv.2.isScalar || kv.1 == "system_values" || kv.1 == "system_paramaters"

/-- The snapshot the base system-state decoder produces for a one-word
block with status word `w`: five fields, with `CONSUMED_POWER` computed
from the heating bits and the fixed constant, not from any register. -/
def baseStateDecoded (w : Nat) : Snapshot :=
  [(IS_COOLING, Value.bool (w &&& (1 <<< 8) != 0)),
   (IS_SUMMER_MODE, Value.bool (w &&& (1 <<< 7) != 0)),
   (CONSUMED_POWER, Value.rat
     (if (w &&& (1 <<< 5) != 0) || (w &&& (1 <<< 4) != 0)
       then HEATPUMPT_AVERAGE_POWER else 0)),
   (IS_HEATING_WATER, Value.bool (w &&& (1 <<< 5) != 0)),
   (IS_HEATING, Value.bool (w &&& (1 <<< 4) != 0))]

/-! ## Helper lemmas -/

/-- Lifting an optional scaled decode always yields a scalar value. -/
@[simp]
theorem Value.isScalar_ofOpt (o : Option Rat) : (Value.ofOpt o).isScalar = true := by
  cases o <;> rfl

/-- Lookup in a concatenated snapshot prefers the left part. -/
theorem Snapshot.find?_append (a b : Snapshot) (k : String) :
    Snapshot.find? (a ++ b) k =
      match Snapshot.find? a k with
      | Option.some v => Option.some v
      | Option.none => Snapshot.find? b k := by
  induction a with
  | nil => rfl
  | cons kv rest ih =>
    rcases kv with ⟨k0, v0⟩
    by_cases h : k0 = k
    · simp [Snapshot.find?, h]
    · simp [Snapshot.find?, h, ih]

/-- Python truncation toward zero moves a rational by strictly less than
one. -/
theorem abs_truncRat_sub_lt_one (q : Rat) : |(truncRat q : Rat) - q| < 1 := by
  unfold truncRat
  split
  · rw [abs_sub_lt_iff]
    constructor
    · have h := Int.floor_le q
      linarith
    · have h := Int.sub_one_lt_floor q
      linarith
  · rw [abs_sub_lt_iff]
    constructor
    · have h := Int.ceil_lt_add_one q
      linarith
    · have h := Int.le_ceil q
      linarith

/-- Decoding a truncating scaled write back with the same scale lands
within one resolution unit of the requested value. -/
theorem truncRat_div_close (x sc : Rat) (hsc : 0 < sc) :
    |((truncRat (x * sc) : Int) : Rat) / sc - x| < 1 / sc := by
  have h := abs_truncRat_sub_lt_one (x * sc)
  have hne : sc ≠ 0 := ne_of_gt hsc
  have heq : ((truncRat (x * sc) : Int) : Rat) / sc - x =
      (((truncRat (x * sc) : Int) : Rat) - x * sc) / sc := by
    field_simp
    ring
  rw [heq, abs_div, abs_of_pos hsc]
  exact (div_lt_div_iff_of_pos_right hsc).mpr h

/-- The guarded-store pattern preserves the snapshot shape invariant. -/
theorem stepSet_all_c8ok (dr : Snapshot × Decoder) (k : String)
    (h : dr.1.all c8ok = true) : (Wpm.stepSet dr k).1.all c8ok = true := by
  dsimp only [Wpm.stepSet, Decoder.decode_16bit_uint]
  split
  · simp [Snapshot.set, c8ok, Value.isScalar, h]
  · exact h

/-- Folding the guarded-store pattern over any key list preserves the
snapshot shape invariant. -/
theorem stepSets_all_c8ok (keys : List String) :
    ∀ dr : Snapshot × Decoder, dr.1.all c8ok = true →
      (Wpm.stepSets dr keys).1.all c8ok = true := by
  induction keys with
  | nil => intro dr h; exact h
  | cons k ks ih => intro dr h; exact ih _ (stepSet_all_c8ok dr k h)

/-- The assignment-less lookup pattern leaves the snapshot untouched when
it does not raise. -/
theorem stepLookup_ok_fst (dr rd : Snapshot × Decoder) (k : String)
    (h : Wpm.stepLookup dr k = Except.ok rd) : rd.1 = dr.1 := by
  dsimp only [Wpm.stepLookup, Decoder.decode_16bit_uint] at h
  split at h
  · rcases hf : dr.1.find? k with _ | w
    · rw [hf] at h
      cases h
    · rw [hf] at h
      cases h
      rfl
  · cases h
    rfl

/-- Folding the assignment-less lookup pattern leaves the snapshot
untouched when it does not raise. -/
theorem stepLookups_ok_fst (keys : List String) :
    ∀ dr rd : Snapshot × Decoder, Wpm.stepLookups dr keys = Except.ok rd →
      rd.1 = dr.1 := by
  induction keys with
  | nil =>
    intro dr rd h
    cases h
    rfl
  | cons k ks ih =>
    intro dr rd h
    unfold Wpm.stepLookups at h
    rcases hs : Wpm.stepLookup dr k with e | dr2
    · rw [hs] at h
      cases h
    · rw [hs] at h
      rw [ih dr2 rd h, stepLookup_ok_fst dr dr2 k hs]

/-- The base system-state block never contributes the lifetime-energy or
actual-temperature keys. -/
theorem base_state_contributes_no_energy_keys (resp : ModbusResponse) :
    ∀ s, Base.read_modbus_system_state resp = Except.ok s →
      s.find? PRODUCED_HEATING_TOTAL = Option.none ∧
      s.find? ACTUAL_TEMPERATURE = Option.none := by
  cases resp with
  | error =>
    intro s h
    cases h
    exact ⟨rfl, rfl⟩
  | ok regs =>
    intro s h
    dsimp only [Base.read_modbus_system_state, Decoder.decode_16bit_uint] at h
    cases h
    exact ⟨rfl, rfl⟩

/-- The base system-parameter block never contributes the lifetime-energy
or actual-temperature keys. -/
theorem base_paramter_contributes_no_energy_keys (resp : ModbusResponse) :
    ∀ s, Base.read_modbus_system_paramter resp = Except.ok s →
      s.find? PRODUCED_HEATING_TOTAL = Option.none ∧
      s.find? ACTUAL_TEMPERATURE = Option.none := by
  cases resp with
  | error =>
    intro s h
    cases h
    exact ⟨rfl, rfl⟩
  | ok regs =>
    intro s h
    dsimp only [Base.read_modbus_system_paramter, Decoder.decode_16bit_uint] at h
    cases h
    exact ⟨rfl, rfl⟩

/-- The sg-ready reads never contribute the lifetime-energy or
actual-temperature keys. -/
theorem base_sg_contributes_no_energy_keys (ri rh : ModbusResponse) :
    ∀ s, Base.read_modbus_sg_ready ri rh = Except.ok s →
      s.find? PRODUCED_HEATING_TOTAL = Option.none ∧
      s.find? ACTUAL_TEMPERATURE = Option.none := by
  cases ri <;> cases rh <;>
    · intro s h
      dsimp only [Base.read_modbus_sg_ready, Decoder.decode_16bit_uint] at h
      cases h
      exact ⟨rfl, rfl⟩

/-- The base system-values block never contributes the lifetime-energy
key, and on success it binds `ACTUAL_TEMPERATURE` to the scaled decode of
the first register of this cycle. -/
theorem base_values_keys (regs : List Nat) :
    ∀ s, Base.read_modbus_system_values (ModbusResponse.ok regs) = Except.ok s →
      s.find? PRODUCED_HEATING_TOTAL = Option.none ∧
      s.find? ACTUAL_TEMPERATURE =
        Option.some (Value.ofOpt (get_isg_scaled_value (toSigned (regs.getD 0 0)))) := by
  intro s h
  dsimp only [Base.read_modbus_system_values, Decoder.decode_16bit_int,
    Decoder.skip_bytes] at h
  split at h
  · cases h
  · split at h
    · cases h
    · cases h
      exact ⟨rfl, rfl⟩

/-- The base system-values block on an error response contributes
nothing. -/
theorem base_values_error :
    Base.read_modbus_system_values ModbusResponse.error = Except.ok [] := rfl

/-- The base system-values block never contributes the lifetime-energy
key, whatever the response. -/
theorem base_values_PHT_none (resp : ModbusResponse) :
    ∀ s, Base.read_modbus_system_values resp = Except.ok s →
      s.find? PRODUCED_HEATING_TOTAL = Option.none := by
  cases resp with
  | error =>
    intro s h
    cases h
    rfl
  | ok regs =>
    intro s h
    exact (base_values_keys regs s h).1

/-- C3 (amended): each successful base-family poll cycle rebuilds the
snapshot from scratch - the result of `async_update_data` does not depend
on the previous snapshot, a failed energy block leaves
`PRODUCED_HEATING_TOTAL` absent from (not stale in) the new snapshot,
`ACTUAL_TEMPERATURE` carries the value freshly decoded from a successful
system-values block, and only a cycle that raises (UpdateFailed) keeps
the previous snapshot. -/
theorem c3_fresh_rebuild_not_merge (prev : Option Snapshot) (r : Base.Responses) :
    (∀ s, Base.read_modbus_data r = Except.ok s →
      Base.async_update_data prev r = Option.some s ∧
      (r.energy = ModbusResponse.error →
        s.find? PRODUCED_HEATING_TOTAL = Option.none) ∧
      (∀ regs, r.system_values = ModbusResponse.ok regs →
        s.find? ACTUAL_TEMPERATURE =
          Option.some (Value.ofOpt (get_isg_scaled_value (toSigned (regs.getD 0 0)))))) ∧
    (∀ e, Base.read_modbus_data r = Except.error e →
      Base.async_update_data prev r = prev) := by
  constructor
  · intro s h
    refine ⟨by simp [Base.async_update_data, h], ?_, ?_⟩
    all_goals
      rcases hen : Base.read_modbus_energy r.energy with e0 | en
      case error => simp [Base.read_modbus_data, hen] at h
      rcases hst : Base.read_modbus_system_state r.system_state with e0 | st
      case error => simp [Base.read_modbus_data, hen, hst] at h
      rcases hsv : Base.read_modbus_system_values r.system_values with e0 | sv
      case error => simp [Base.read_modbus_data, hen, hst, hsv] at h
      rcases hsp : Base.read_modbus_system_paramter r.system_paramter with e0 | sp
      case error => simp [Base.read_modbus_data, hen, hst, hsv, hsp] at h
      rcases hsg : Base.read_modbus_sg_ready r.sg_ready_input r.sg_ready_holding with e0 | sg
      case error => simp [Base.read_modbus_data, hen, hst, hsv, hsp, hsg] at h
      simp only [Base.read_modbus_data, hen, hst, hsv, hsp, hsg, Except.ok.injEq] at h
      subst h
    · intro he
      rw [he] at hen
      simp only [Base.read_modbus_energy, Except.ok.injEq] at hen
      subst hen
      have h1 := (base_sg_contributes_no_energy_keys r.sg_ready_input r.sg_ready_holding sg hsg).1
      have h2 := (base_paramter_contributes_no_energy_keys r.system_paramter sp hsp).1
      have h3 := base_values_PHT_none r.system_values sv hsv
      have h4 := (base_state_contributes_no_energy_keys r.system_state st hst).1
      simp [dictMerge, Snapshot.find?_append, h1, h2, h3, h4, Snapshot.find?]
    · intro regs hv
      rw [hv] at hsv
      have h1 := (base_sg_contributes_no_energy_keys r.sg_ready_input r.sg_ready_holding sg hsg).2
      have h2 := (base_paramter_contributes_no_energy_keys r.system_paramter sp hsp).2
      have h3 := (base_values_keys regs sv hsv).2
      simp [dictMerge, Snapshot.find?_append, h1, h2, h3]
  · intro e h
    simp [Base.async_update_data, h]

/-- C3 (counterexample): with a previous snapshot knowing
`PRODUCED_HEATING_TOTAL = 42` and a cycle whose energy-block read fails
while every other block succeeds, the new snapshot drops the key entirely
instead of retaining the stale value, while `ACTUAL_TEMPERATURE` updates;
the claimed merge-over-previous behaviour therefore fails on the code. -/
theorem c3_counterexample :
    Snapshot.find? prevSnapshotC3 PRODUCED_HEATING_TOTAL = Option.some (Value.int 42) ∧
    responsesC3.energy = ModbusResponse.error ∧
    (Base.async_update_data (Option.some prevSnapshotC3) responsesC3).map
        (fun s => s.find? PRODUCED_HEATING_TOTAL) = Option.some Option.none ∧
    (Base.async_update_data (Option.some prevSnapshotC3) responsesC3).map
        (fun s => s.find? ACTUAL_TEMPERATURE) =
      Option.some (Option.some (Value.ofOpt (get_isg_scaled_value 0))) ∧
    Value.ofOpt (get_isg_scaled_value 0) = Value.rat 0 := by
  refine ⟨rfl, rfl, rfl, rfl, ?_⟩
  norm_num [get_isg_scaled_value, Value.ofOpt]

/-- C3 (witness): the amended theorem applied to the concrete cycle in
which every block read fails, so the fresh rebuild is the empty snapshot. -/
theorem c3_witness :
    Base.async_update_data (Option.some prevSnapshotC3) allErrorResponses =
      Option.some [] ∧
    Snapshot.find? [] PRODUCED_HEATING_TOTAL = Option.none := by
  have h := (c3_fresh_rebuild_not_merge (Option.some prevSnapshotC3) allErrorResponses).1 [] rfl
  exact ⟨h.1, h.2.1 rfl⟩

set_option maxRecDepth 4096 in
/-- C1: decoding the 47-word WPM system-state block raises `KeyError` as
soon as one of the seven status words 2509-2515 differs from the 32768
sentinel, because the source reads `result[KEY]` without assigning it;
with all seven at the sentinel the rest of the block decodes exactly as
documented (status bits of 2501, `ERROR_STATUS` from 2504, the guarded
words from 2517 on present when non-sentinel, sentinel words absent). -/
theorem c1_wpm_state_keyerror_on_pump_word :
    Wpm.read_modbus_system_state (ModbusResponse.ok c1FailingBlock) =
      Except.error DecodeErr.keyError ∧
    Wpm.read_modbus_system_state (ModbusResponse.ok c1SentinelBlock) =
      Except.ok c1SentinelResult ∧
    Snapshot.find? c1SentinelResult IS_HEATING = Option.some (Value.bool true) ∧
    Snapshot.find? c1SentinelResult IS_COOLING = Option.some (Value.bool true) ∧
    Snapshot.find? c1SentinelResult ERROR_STATUS = Option.some (Value.int 5) ∧
    Snapshot.find? c1SentinelResult HEATING_CIRCUIT_1_PUMP = Option.none ∧
    Snapshot.find? c1SentinelResult CIRCULATION_PUMP = Option.some (Value.int 1) ∧
    Snapshot.find? c1SentinelResult HEAT_PUMP_6_ON = Option.none := by
  refine ⟨rfl, rfl, rfl, rfl, rfl, rfl, rfl, rfl⟩

/-- C2: the scaled decode itself maps the -32768 sentinel to an absent
value for every divisor in use, but the base system-values block decode
then divides that absent value by 10 for `HEATER_PRESSURE`, so decoding a
block whose register 520 carries the sentinel raises `TypeError` instead
of producing an absent field. -/
theorem c2_sentinel_block_raises_typeerror :
    get_isg_scaled_value (-32768) = Option.none ∧
    get_isg_scaled_value_wpm (-32768) 10 = Option.none ∧
    get_isg_scaled_value_wpm (-32768) 100 = Option.none ∧
    Base.read_modbus_system_values (ModbusResponse.ok c2FailingBlock) =
      Except.error DecodeErr.typeError := by
  refine ⟨rfl, rfl, rfl, rfl⟩

/-- C4 (counterexample): setting the HK1 comfort target to 21.26 degrees
writes `int(21.26 * 10) = 212`, while rounding half away from zero as the
claim states would write 213; the code truncates instead of rounding. -/
theorem c4_counterexample :
    (Wpm.set_data [] COMFORT_TEMPERATURE_TARGET_HK1 (1063 / 50)).1 =
      [⟨1501, ((212 : Int) : Rat), 1⟩] ∧
    spec_round_half_away ((1063 : Rat) / 50 * 10) = 213 := by
  constructor
  · show [(⟨1501, ((truncRat ((1063 : Rat) / 50 * 10) : Int) : Rat), 1⟩ : WriteOp)] =
      [⟨1501, ((212 : Int) : Rat), 1⟩]
    norm_num [truncRat]
  · norm_num [spec_round_half_away]

/-- C4 (amended): for every writable scaled field the WPM `set_data`
issues exactly one write of `int(v * scale)` - truncation toward zero,
not round-half-away-from-zero - to the field's write address on unit 1,
stores the passed value optimistically, and decoding the written word
back with the same scale still lands within one unit of the scale's
resolution of `v`. -/
theorem c4_truncating_scaled_write (data : Snapshot) (v : Rat)
    (p : String × Nat × Rat) (h : p ∈ Wpm.scaledWriteFields) :
    Wpm.set_data data p.1 v =
      ([⟨p.2.1, ((truncRat (v * p.2.2) : Int) : Rat), 1⟩],
        data.set p.1 (Value.rat v)) ∧
    |((truncRat (v * p.2.2) : Int) : Rat) / p.2.2 - v| < 1 / p.2.2 := by
  fin_cases h <;>
    exact ⟨rfl, truncRat_div_close v _ (by norm_num)⟩

/-- C4 (witness): the amended theorem applied to the HK1 comfort target
at value 0. -/
theorem c4_witness :
    Wpm.set_data [] COMFORT_TEMPERATURE_TARGET_HK1 0 =
      ([⟨1501, ((truncRat ((0 : Rat) * 10) : Int) : Rat), 1⟩],
        Snapshot.set [] COMFORT_TEMPERATURE_TARGET_HK1 (Value.rat 0)) ∧
    |((truncRat ((0 : Rat) * 10) : Int) : Rat) / 10 - 0| < 1 / 10 :=
  c4_truncating_scaled_write [] 0 (COMFORT_TEMPERATURE_TARGET_HK1, 1501, 10)
    (List.Mem.head _)

/-- C5: within one base-family poll cycle a transport error on one block
read is fatal for that block only - the failed block decodes to the empty
contribution without raising, and the cycle equals the merge of the
remaining blocks, each still read and decoded in order. -/
theorem c5_block_error_isolated (r : Base.Responses) :
    (r.energy = ModbusResponse.error →
      Base.read_modbus_energy r.energy = Except.ok [] ∧
      Base.read_modbus_data r = (do
        let st ← Base.read_modbus_system_state r.system_state
        let sv ← Base.read_modbus_system_values r.system_values
        let sp ← Base.read_modbus_system_paramter r.system_paramter
        let sg ← Base.read_modbus_sg_ready r.sg_ready_input r.sg_ready_holding
        return dictMerge (dictMerge (dictMerge (dictMerge [] st) sv) sp) sg)) ∧
    (r.system_state = ModbusResponse.error →
      Base.read_modbus_system_state r.system_state = Except.ok [] ∧
      Base.read_modbus_data r = (do
        let en ← Base.read_modbus_energy r.energy
        let sv ← Base.read_modbus_system_values r.system_values
        let sp ← Base.read_modbus_system_paramter r.system_paramter
        let sg ← Base.read_modbus_sg_ready r.sg_ready_input r.sg_ready_holding
        return dictMerge (dictMerge (dictMerge (dictMerge en []) sv) sp) sg)) ∧
    (r.system_values = ModbusResponse.error →
      Base.read_modbus_system_values r.system_values = Except.ok [] ∧
      Base.read_modbus_data r = (do
        let en ← Base.read_modbus_energy r.energy
        let st ← Base.read_modbus_system_state r.system_state
        let sp ← Base.read_modbus_system_paramter r.system_paramter
        let sg ← Base.read_modbus_sg_ready r.sg_ready_input r.sg_ready_holding
        return dictMerge (dictMerge (dictMerge (dictMerge en st) []) sp) sg)) ∧
    (r.system_paramter = ModbusResponse.error →
      Base.read_modbus_system_paramter r.system_paramter = Except.ok [] ∧
      Base.read_modbus_data r = (do
        let en ← Base.read_modbus_energy r.energy
        let st ← Base.read_modbus_system_state r.system_state
        let sv ← Base.read_modbus_system_values r.system_values
        let sg ← Base.read_modbus_sg_ready r.sg_ready_input r.sg_ready_holding
        return dictMerge (dictMerge (dictMerge (dictMerge en st) sv) []) sg)) ∧
    (r.sg_ready_input = ModbusResponse.error → r.sg_ready_holding = ModbusResponse.error →
      Base.read_modbus_sg_ready r.sg_ready_input r.sg_ready_holding = Except.ok [] ∧
      Base.read_modbus_data r = (do
        let en ← Base.read_modbus_energy r.energy
        let st ← Base.read_modbus_system_state r.system_state
        let sv ← Base.read_modbus_system_values r.system_values
        let sp ← Base.read_modbus_system_paramter r.system_paramter
        return dictMerge (dictMerge (dictMerge (dictMerge en st) sv) sp) [])) := by
  refine ⟨?_, ?_, ?_, ?_, ?_⟩
  · intro h
    refine ⟨by rw [h]; exact rfl, ?_⟩
    unfold Base.read_modbus_data
    rw [h]
    rcases hst : Base.read_modbus_system_state r.system_state with e0 | st
    · exact rfl
    rcases hsv : Base.read_modbus_system_values r.system_values with e0 | sv
    · exact rfl
    rcases hsp : Base.read_modbus_system_paramter r.system_paramter with e0 | sp
    · exact rfl
    rcases hsg : Base.read_modbus_sg_ready r.sg_ready_input r.sg_ready_holding with e0 | sg
    · exact rfl
    · exact rfl
  · intro h
    refine ⟨by rw [h]; exact rfl, ?_⟩
    unfold Base.read_modbus_data
    rw [h]
    rcases hen : Base.read_modbus_energy r.energy with e0 | en
    · exact rfl
    rcases hsv : Base.read_modbus_system_values r.system_values with e0 | sv
    · exact rfl
    rcases hsp : Base.read_modbus_system_paramter r.system_paramter with e0 | sp
    · exact rfl
    rcases hsg : Base.read_modbus_sg_ready r.sg_ready_input r.sg_ready_holding with e0 | sg
    · exact rfl
    · exact rfl
  · intro h
    refine ⟨by rw [h]; exact rfl, ?_⟩
    unfold Base.read_modbus_data
    rw [h]
    rcases hen : Base.read_modbus_energy r.energy with e0 | en
    · exact rfl
    rcases hst : Base.read_modbus_system_state r.system_state with e0 | st
    · exact rfl
    rcases hsp : Base.read_modbus_system_paramter r.system_paramter with e0 | sp
    · exact rfl
    rcases hsg : Base.read_modbus_sg_ready r.sg_ready_input r.sg_ready_holding with e0 | sg
    · exact rfl
    · exact rfl
  · intro h
    refine ⟨by rw [h]; exact rfl, ?_⟩
    unfold Base.read_modbus_data
    rw [h]
    rcases hen : Base.read_modbus_energy r.energy with e0 | en
    · exact rfl
    rcases hst : Base.read_modbus_system_state r.system_state with e0 | st
    · exact rfl
    rcases hsv : Base.read_modbus_system_values r.system_values with e0 | sv
    · exact rfl
    rcases hsg : Base.read_modbus_sg_ready r.sg_ready_input r.sg_ready_holding with e0 | sg
    · exact rfl
    · exact rfl
  · intro h1 h2
    refine ⟨by rw [h1, h2]; exact rfl, ?_⟩
    unfold Base.read_modbus_data
    rw [h1, h2]
    rcases hen : Base.read_modbus_energy r.energy with e0 | en
    · exact rfl
    rcases hst : Base.read_modbus_system_state r.system_state with e0 | st
    · exact rfl
    rcases hsv : Base.read_modbus_system_values r.system_values with e0 | sv
    · exact rfl
    rcases hsp : Base.read_modbus_system_paramter r.system_paramter with e0 | sp
    · exact rfl
    · exact rfl

/-- C5 (witness): the isolation theorem applied to the cycle in which
every block read fails; the failed energy block contributes nothing and
the whole cycle still returns (the empty snapshot) without raising. -/
theorem c5_witness :
    Base.read_modbus_energy ModbusResponse.error = Except.ok [] ∧
    Base.read_modbus_data allErrorResponses = Except.ok [] := by
  have h := (c5_block_error_isolated allErrorResponses).1 rfl
  exact ⟨h.1, by rw [h.2]; exact rfl⟩

/-- C6: setting the operation-mode field to 1 on the base coordinator
issues exactly one write-registers call, to address 1500 on unit 1 with
value 1, the snapshot optimistically binds the operation-mode key to the
raw value 1, and every other key keeps its previous binding. -/
theorem c6_set_operation_mode (data : Snapshot) :
    Base.set_data data OPERATION_MODE 1 =
      ([⟨1500, 1, 1⟩], data.set OPERATION_MODE (Value.rat 1)) ∧
    (Base.set_data data OPERATION_MODE 1).2.find? OPERATION_MODE =
      Option.some (Value.rat 1) ∧
    ∀ k, k ≠ OPERATION_MODE →
      (Base.set_data data OPERATION_MODE 1).2.find? k = data.find? k := by
  refine ⟨rfl, rfl, ?_⟩
  intro k hk
  show Snapshot.find? ((OPERATION_MODE, Value.rat 1) :: data) k = data.find? k
  simp only [Snapshot.find?]
  rw [if_neg (fun h => hk h.symm)]

/-- C6 (witness): the operation-mode write applied to the empty snapshot,
with the unrelated heating key unchanged. -/
theorem c6_witness :
    Base.set_data [] OPERATION_MODE 1 =
      ([⟨1500, 1, 1⟩], Snapshot.set [] OPERATION_MODE (Value.rat 1)) ∧
    (Base.set_data [] OPERATION_MODE 1).2.find? IS_HEATING =
      Snapshot.find? [] IS_HEATING := by
  have h := c6_set_operation_mode []
  exact ⟨h.1, h.2.2 IS_HEATING (by decide)⟩

/-- C7: a field identifier outside the active device family's write map
makes that family's `set_data` a silent no-op - no write-registers call
is issued, the snapshot is returned unchanged, and no error is raised; in
particular a field known only to the other family (such as a WPM-only
temperature target sent to the base coordinator) is silently ignored. -/
theorem c7_unknown_key_is_noop (data : Snapshot) (key : String) (value : Rat) :
    (key ∉ Base.writableKeys → Base.set_data data key value = ([], data)) ∧
    (key ∉ Wpm.writableKeys → Wpm.set_data data key value = ([], data)) := by
  constructor
  · intro hb
    simp only [Base.writableKeys, List.mem_cons, List.not_mem_nil, or_false,
      not_or] at hb
    obtain ⟨b1, b2, b3, b4⟩ := hb
    simp [Base.set_data, b1, b2, b3, b4]
  · intro hw
    simp only [Wpm.writableKeys, List.mem_cons, List.not_mem_nil, or_false,
      not_or] at hw
    obtain ⟨w1, w2, w3, w4, w5, w6, w7, w8, w9, w10, w11, w12, w13, w14, w15,
      w16, w17, w18, w19⟩ := hw
    simp [Wpm.set_data, w1, w2, w3, w4, w5, w6, w7, w8, w9, w10, w11, w12,
      w13, w14, w15, w16, w17, w18, w19]

/-- C7 (witness): the HK1 comfort target - a WPM-only field id, outside
the base family's write map - is a no-op on the base coordinator, and the
spec scenario `set("unknown_field", 5)` is a no-op on both families. -/
theorem c7_witness :
    Base.set_data [] COMFORT_TEMPERATURE_TARGET_HK1 (47 / 2) = ([], []) ∧
    Base.set_data [] "unknown_field" 5 = ([], []) ∧
    Wpm.set_data [] "unknown_field" 5 = ([], []) :=
  ⟨(c7_unknown_key_is_noop [] COMFORT_TEMPERATURE_TARGET_HK1 (47 / 2)).1 (by decide),
   (c7_unknown_key_is_noop [] "unknown_field" 5).1 (by decide),
   (c7_unknown_key_is_noop [] "unknown_field" 5).2 (by decide)⟩

/-- C9: whenever the base system-state block read succeeds, its one-word
decode binds `CONSUMED_POWER` to the fixed constant
`HEATPUMPT_AVERAGE_POWER` exactly when the heating bit 4 or the
water-heating bit 5 of the state word is set, and to 0.0 otherwise - the
value is derived from the status bits, never read from a register. -/
theorem c9_consumed_power_is_constant (w : Nat) :
    Base.read_modbus_system_state (ModbusResponse.ok [w]) =
      Except.ok (baseStateDecoded w) ∧
    ∀ s, Base.read_modbus_system_state (ModbusResponse.ok [w]) = Except.ok s →
      s.find? CONSUMED_POWER =
        Option.some (Value.rat
          (if (w &&& (1 <<< 5) != 0) || (w &&& (1 <<< 4) != 0)
            then HEATPUMPT_AVERAGE_POWER else 0)) := by
  refine ⟨rfl, ?_⟩
  intro s h
  have hbig : Base.read_modbus_system_state (ModbusResponse.ok [w]) =
      Except.ok (baseStateDecoded w) := rfl
  rw [hbig] at h
  cases h
  exact rfl

/-- C10: `async_reset_heatpump` performs exactly one write-registers
call - value 3 to holding register 1519 on unit 1 - and leaves every key
of the snapshot unchanged. -/
theorem c10_reset_writes_1519_only (data : Snapshot) :
    Wpm.async_reset_heatpump data = ([⟨1519, 3, 1⟩], data) ∧
    (Wpm.async_reset_heatpump data).1.length = 1 ∧
    ∀ k, (Wpm.async_reset_heatpump data).2.find? k = data.find? k :=
  ⟨rfl, rfl, fun _ => rfl⟩

/-- Boolean snapshot values are scalar. -/
@[simp]
theorem Value.isScalar_bool (b : Bool) : (Value.bool b).isScalar = true := rfl

/-- Integer snapshot values are scalar. -/
@[simp]
theorem Value.isScalar_int (n : Int) : (Value.int n).isScalar = true := rfl

/-- Rational snapshot values are scalar. -/
@[simp]
theorem Value.isScalar_rat (q : Rat) : (Value.rat q).isScalar = true := rfl

/-- String snapshot values are scalar. -/
@[simp]
theorem Value.isScalar_str (s : String) : (Value.str s).isScalar = true := rfl

/-- The absent marker is scalar. -/
@[simp]
theorem Value.isScalar_none : Value.none.isScalar = true := rfl

/-- Raw register lists are not scalar. -/
@[simp]
theorem Value.isScalar_list (l : List Nat) : (Value.list l).isScalar = false := rfl

/-- The WPM system-values decode stores only scalars plus the raw list
under its debug key. -/
theorem wpm_values_shape (regs : List Nat) :
    ∀ s, Wpm.read_modbus_system_values (ModbusResponse.ok regs) = Except.ok s →
      s.all c8ok = true := by
  intro s h
  dsimp only [Wpm.read_modbus_system_values, Decoder.decode_16bit_int,
    Decoder.skip_bytes] at h
  cases h
  simp [Snapshot.set, c8ok]

/-- The WPM system-parameter decode stores only scalars plus the raw list
under its debug key. -/
theorem wpm_paramter_shape (regs : List Nat) :
    ∀ s, Wpm.read_modbus_system_paramter (ModbusResponse.ok regs) = Except.ok s →
      s.all c8ok = true := by
  intro s h
  dsimp only [Wpm.read_modbus_system_paramter, Decoder.decode_16bit_int,
    Decoder.decode_16bit_uint, Decoder.skip_bytes] at h
  cases h
  simp [Snapshot.set, c8ok]

set_option maxRecDepth 8192 in
/-- The guarded tail of the WPM system-state decode preserves the
snapshot shape invariant. -/
theorem wpm_state_tail_shape (rd : Snapshot × Decoder)
    (hall : rd.1.all c8ok = true) :
    ∀ s, Wpm.read_modbus_system_state_tail rd = Except.ok s →
      s.all c8ok = true := by
  intro s h
  unfold Wpm.read_modbus_system_state_tail at h
  rcases hlk : Wpm.stepLookups rd Wpm.lookupPatternKeys with e | rd2
  · rw [hlk] at h
    cases h
  · rw [hlk] at h
    have hs : (Wpm.stepSets (rd2.1, rd2.2.skip_bytes 2) Wpm.setPatternKeys).1 = s :=
      Except.ok.inj h
    subst hs
    apply stepSets_all_c8ok
    have hfst := stepLookups_ok_fst Wpm.lookupPatternKeys rd rd2 hlk
    rw [hfst]
    exact hall

set_option maxRecDepth 8192 in
/-- The WPM system-state decode stores only scalar values. -/
theorem wpm_state_shape (resp : ModbusResponse) :
    ∀ s, Wpm.read_modbus_system_state resp = Except.ok s → s.all c8ok = true := by
  cases resp with
  | error =>
    intro s h
    cases h
    rfl
  | ok regs =>
    intro s h
    dsimp only [Wpm.read_modbus_system_state, Decoder.decode_16bit_uint,
      Decoder.skip_bytes] at h
    refine wpm_state_tail_shape _ ?_ s h
    split <;> simp [Snapshot.set, c8ok]

/-- The energy decode of either family stores only scalar values. -/
theorem energy_shape (resp : ModbusResponse) :
    ∀ s, (Wpm.read_modbus_energy resp = Except.ok s → s.all c8ok = true) ∧
      (Base.read_modbus_energy resp = Except.ok s → s.all c8ok = true) := by
  cases resp with
  | error =>
    intro s
    constructor <;> (intro h; cases h; rfl)
  | ok regs =>
    intro s
    constructor <;>
      · intro h
        first
        | dsimp only [Wpm.read_modbus_energy, Decoder.decode_16bit_uint,
            Decoder.skip_bytes] at h
        | dsimp only [Base.read_modbus_energy, Decoder.decode_16bit_uint,
            Decoder.skip_bytes] at h
        cases h
        simp [Snapshot.set, c8ok]

/-- The base system-state decode stores only scalar values. -/
theorem base_state_shape (resp : ModbusResponse) :
    ∀ s, Base.read_modbus_system_state resp = Except.ok s → s.all c8ok = true := by
  cases resp with
  | error =>
    intro s h
    cases h
    rfl
  | ok regs =>
    intro s h
    dsimp only [Base.read_modbus_system_state, Decoder.decode_16bit_uint] at h
    cases h
    simp [Snapshot.set, c8ok]

/-- The base system-values decode stores only scalar values when it does
not raise. -/
theorem base_values_shape (resp : ModbusResponse) :
    ∀ s, Base.read_modbus_system_values resp = Except.ok s → s.all c8ok = true := by
  cases resp with
  | error =>
    intro s h
    cases h
    rfl
  | ok regs =>
    intro s h
    dsimp only [Base.read_modbus_system_values, Decoder.decode_16bit_int,
      Decoder.skip_bytes, divOpt] at h
    split at h
    · cases h
    · split at h
      · cases h
      · cases h
        simp [Snapshot.set, c8ok]

/-- The base system-parameter decode stores only scalar values. -/
theorem base_paramter_shape (resp : ModbusResponse) :
    ∀ s, Base.read_modbus_system_paramter resp = Except.ok s → s.all c8ok = true := by
  cases resp with
  | error =>
    intro s h
    cases h
    rfl
  | ok regs =>
    intro s h
    dsimp only [Base.read_modbus_system_paramter, Decoder.decode_16bit_uint] at h
    cases h
    simp [Snapshot.set, c8ok]

/-- The sg-ready decode stores only scalar values. -/
theorem base_sg_shape (ri rh : ModbusResponse) :
    ∀ s, Base.read_modbus_sg_ready ri rh = Except.ok s → s.all c8ok = true := by
  cases ri <;> cases rh <;>
    · intro s h
      dsimp only [Base.read_modbus_sg_ready, Decoder.decode_16bit_uint] at h
      cases h
      simp [Snapshot.set, c8ok]

set_option maxRecDepth 8192 in
/-- The base write path either stores the passed value or leaves the
snapshot untouched. -/
theorem base_set_data_snd (data : Snapshot) (key : String) (value : Rat) :
    (Base.set_data data key value).2 = data.set key (Value.rat value) ∨
    (Base.set_data data key value).2 = data := by
  unfold Base.set_data
  repeat
    first
    | exact Or.inl rfl
    | exact Or.inr rfl
    | split

set_option maxRecDepth 8192 in
/-- The WPM write path either stores the passed value or leaves the
snapshot untouched. -/
theorem wpm_set_data_snd (data : Snapshot) (key : String) (value : Rat) :
    (Wpm.set_data data key value).2 = data.set key (Value.rat value) ∨
    (Wpm.set_data data key value).2 = data := by
  unfold Wpm.set_data
  by_cases h1 : key = SG_READY_ACTIVE
  · rw [if_pos h1]
    exact Or.inl rfl
  rw [if_neg h1]
  by_cases h2 : key = SG_READY_INPUT_1
  · rw [if_pos h2]
    exact Or.inl rfl
  rw [if_neg h2]
  by_cases h3 : key = SG_READY_INPUT_2
  · rw [if_pos h3]
    exact Or.inl rfl
  rw [if_neg h3]
  by_cases h4 : key = OPERATION_MODE
  · rw [if_pos h4]
    exact Or.inl rfl
  rw [if_neg h4]
  by_cases h5 : key = COMFORT_TEMPERATURE_TARGET_HK1
  · rw [if_pos h5]
    exact Or.inl rfl
  rw [if_neg h5]
  by_cases h6 : key = ECO_TEMPERATURE_TARGET_HK1
  · rw [if_pos h6]
    exact Or.inl rfl
  rw [if_neg h6]
  by_cases h7 : key = HEATING_CURVE_RISE_HK1
  · rw [if_pos h7]
    exact Or.inl rfl
  rw [if_neg h7]
  by_cases h8 : key = COMFORT_TEMPERATURE_TARGET_HK2
  · rw [if_pos h8]
    exact Or.inl rfl
  rw [if_neg h8]
  by_cases h9 : key = ECO_TEMPERATURE_TARGET_HK2
  · rw [if_pos h9]
    exact Or.inl rfl
  rw [if_neg h9]
  by_cases h10 : key = HEATING_CURVE_RISE_HK2
  · rw [if_pos h10]
    exact Or.inl rfl
  rw [if_neg h10]
  by_cases h11 : key = DUALMODE_TEMPERATURE_HZG
  · rw [if_pos h11]
    exact Or.inl rfl
  rw [if_neg h11]
  by_cases h12 : key = COMFORT_WATER_TEMPERATURE_TARGET
  · rw [if_pos h12]
    exact Or.inl rfl
  rw [if_neg h12]
  by_cases h13 : key = ECO_WATER_TEMPERATURE_TARGET
  · rw [if_pos h13]
    exact Or.inl rfl
  rw [if_neg h13]
  by_cases h14 : key = DUALMODE_TEMPERATURE_WW
  · rw [if_pos h14]
    exact Or.inl rfl
  rw [if_neg h14]
  by_cases h15 : key = AREA_COOLING_TARGET_FLOW_TEMPERATURE
  · rw [if_pos h15]
    exact Or.inl rfl
  rw [if_neg h15]
  by_cases h16 : key = AREA_COOLING_TARGET_ROOM_TEMPERATURE
  · rw [if_pos h16]
    exact Or.inl rfl
  rw [if_neg h16]
  by_cases h17 : key = FAN_COOLING_TARGET_FLOW_TEMPERATURE
  · rw [if_pos h17]
    exact Or.inl rfl
  rw [if_neg h17]
  by_cases h18 : key = FAN_COOLING_TARGET_ROOM_TEMPERATURE
  · rw [if_pos h18]
    exact Or.inl rfl
  rw [if_neg h18]
  by_cases h19 : key = CIRCULATION_PUMP
  · rw [if_pos h19]
    exact Or.inl rfl
  rw [if_neg h19]
  exact Or.inr rfl

/-- C8 (amended): every value stored in the snapshot by every block
decode and by the write path of either family is a boolean, integer,
rational, short string, or the absent marker - except that the WPM
system-values and system-parameter decoders additionally store the raw
register word list under the literal debug keys `system_values` and
`system_paramaters`. -/
theorem c8_snapshot_values_scalar_except_debug_lists :
    (∀ regs s, Wpm.read_modbus_system_values (ModbusResponse.ok regs) = Except.ok s →
      s.all c8ok = true) ∧
    (∀ regs s, Wpm.read_modbus_system_paramter (ModbusResponse.ok regs) = Except.ok s →
      s.all c8ok = true) ∧
    (∀ resp s, Wpm.read_modbus_system_state resp = Except.ok s → s.all c8ok = true) ∧
    (∀ resp s, Wpm.read_modbus_energy resp = Except.ok s → s.all c8ok = true) ∧
    (∀ resp s, Base.read_modbus_system_state resp = Except.ok s → s.all c8ok = true) ∧
    (∀ resp s, Base.read_modbus_system_values resp = Except.ok s → s.all c8ok = true) ∧
    (∀ resp s, Base.read_modbus_system_paramter resp = Except.ok s → s.all c8ok = true) ∧
    (∀ resp s, Base.read_modbus_energy resp = Except.ok s → s.all c8ok = true) ∧
    (∀ ri rh s, Base.read_modbus_sg_ready ri rh = Except.ok s → s.all c8ok = true) ∧
    (∀ data key value, List.all data c8ok = true →
      (Base.set_data data key value).2.all c8ok = true ∧
      (Wpm.set_data data key value).2.all c8ok = true) := by
  refine ⟨wpm_values_shape, wpm_paramter_shape, wpm_state_shape,
    fun resp s => (energy_shape resp s).1, base_state_shape, base_values_shape,
    base_paramter_shape, fun resp s => (energy_shape resp s).2, base_sg_shape, ?_⟩
  intro data key value hall
  constructor
  · rcases base_set_data_snd data key value with he | he <;> rw [he] <;>
      simp [Snapshot.set, c8ok, hall]
  · rcases wpm_set_data_snd data key value with he | he <;> rw [he] <;>
      simp [Snapshot.set, c8ok, hall]

/-- C8 (witness): the amended shape invariant instantiated at the base
system-state decode of the all-zero status word. -/
theorem c8_witness : (baseStateDecoded 0).all c8ok = true :=
  c8_snapshot_values_scalar_except_debug_lists.2.2.2.2.1
    (ModbusResponse.ok [0]) (baseStateDecoded 0) rfl

/-- C8 (counterexample): the WPM system-values decoder stores the raw
111-word register list itself - not a scalar - under the snapshot key
`system_values`, refuting the claim that only scalar values are ever
stored. -/
theorem c8_counterexample :
    (Wpm.read_modbus_system_values (ModbusResponse.ok zeros111)).map
        (fun s => s.find? "system_values") =
      Except.ok (Option.some (Value.list zeros111)) ∧
    Value.isScalar (Value.list zeros111) = false := by
  exact ⟨rfl, rfl⟩

/-- C9 (witness): the constant-power theorem applied to the status word
16 (heating bit 4 set): `CONSUMED_POWER` is bound to the fixed constant. -/
theorem c9_witness :
    Base.read_modbus_system_state (ModbusResponse.ok [16]) =
      Except.ok (baseStateDecoded 16) ∧
    Snapshot.find? (baseStateDecoded 16) CONSUMED_POWER =
      Option.some (Value.rat HEATPUMPT_AVERAGE_POWER) := by
  have h := c9_consumed_power_is_constant 16
  exact ⟨h.1, h.2 (baseStateDecoded 16) h.1⟩
